import Mathlib

/-!
Verification development for the sauron-live repository (src/sauron.py).

The Python program is shallowly embedded: every pure helper becomes a Lean
function over `String` / `List`; the effectful parts (subprocess pings run by a
thread pool, the previous "latest" JSON snapshot on disk, the webhook HTTP
transport, wall-clock timestamps) are supplied by an explicit environment
record, so that one run of `_run_once` becomes a total function of the
environment, the CLI arguments and the loaded inventory rows.

Modelling conventions:
* Python strings are Lean `String`s; the string primitives the script uses
  (`strip`, `lower`, leading-digit matching, `split(".")`, `int(...)`,
  lexicographic comparison) are re-implemented structurally over `String.data`
  so that every definition evaluates by kernel reduction.  The script's data
  (store numbers, dotted-quad addresses) is ASCII, so ASCII digit/whitespace
  classes model Python's Unicode classes faithfully on the inputs that occur.
* `subprocess.run` of the OS ping command is modelled by an
  `Except String Int` value chosen by the environment: `.ok rc` is a completed
  process with return code `rc`, `.error e` is a raised exception.
* `ThreadPoolExecutor` + `as_completed` deliver the per-target results in an
  arbitrary order; the environment supplies that completion order as a list of
  (target, subprocess result) pairs.  Theorems that need it assume the
  completion list covers the submitted targets (a permutation), which is what
  the executor guarantees.
* Python's stable `list.sort(key=store_sort_key)` is modelled by Mathlib's
  `List.insertionSort`, which is also stable, over the same key order; a
  stable sort's output is uniquely determined by the input order and the key,
  so the two agree.
* `float` latitude/longitude values are carried opaquely as `Option Rat`;
  no claim computes with them.
* Wall-clock durations (`time.perf_counter`) are not modelled; no claim
  mentions them.
-/

namespace Sauron

/-! ## String primitives (Python semantics, implemented over `String.data`) -/

/-- Lexicographic strict comparison of character lists, by code point: the
model of Python string `<` used inside tuple sort keys. -/
def charsLtB : List Char → List Char → Bool
  | [], [] => false
  | [], _ :: _ => true
  | _ :: _, [] => false
  | a :: as, b :: bs => if a < b then true else if b < a then false else charsLtB as bs

/-- Python string `<` on Lean strings. -/
def strLtB (a b : String) : Bool := charsLtB a.data b.data

/-- Python `str.strip()` (whitespace from both ends; ASCII model). -/
def pyStrip (s : String) : String :=
  ⟨((s.data.dropWhile Char.isWhitespace).reverse.dropWhile Char.isWhitespace).reverse⟩

/-- Python `str.lower()` (ASCII model). -/
def pyLower (s : String) : String := ⟨s.data.map Char.toLower⟩

/-- The digits matched by the regex `^(\d+)` (empty if the first character is
not a digit). -/
def leadingDigits (s : String) : List Char := s.data.takeWhile Char.isDigit

/-- Numeric value of a digit string, as computed by Python `int(...)`. -/
def digitsVal (cs : List Char) : Nat := cs.foldl (fun acc c => acc * 10 + (c.toNat - 48)) 0

/-- Python `s.split(".")` over the character list. -/
def splitDots (cs : List Char) : List (List Char) :=
  match cs with
  | [] => [[]]
  | c :: rest =>
    let r := splitDots rest
    if c = '.' then [] :: r
    else
      match r with
      | [] => [[c]]
      | h :: t => (c :: h) :: t

/-! ## Leaf helpers of sauron.py -/

/-- Model of `_to_bool` (sauron.py:603) restricted to the string case, which is
the only case the pipeline feeds it: `value.strip().lower() == "true"`.  (The
rows this program writes store booleans as the strings "true"/"false".) -/
def to_bool (s : String) : Bool := pyLower (pyStrip s) == "true"

/-- Model of `first4_digits` (sauron.py:171): leading digits of the stripped
store number, truncated to four characters. -/
def first4_digits (store : String) : String :=
  ⟨(leadingDigits (pyStrip store)).take 4⟩

/-- Model of `store_sort_key` (sauron.py:183): numeric sort by leading digits
with the full identity string as tiebreaker, fallback bucket 10^12. -/
def store_sort_key (store : String) : Nat × String :=
  let d := leadingDigits store
  if d.isEmpty then (10 ^ 12, store) else (digitsVal d, store)

/-- Python tuple `<=` on the `(int, str)` sort keys. -/
def pyKeyLE (a b : Nat × String) : Prop :=
  a.1 < b.1 ∨ (a.1 = b.1 ∧ (strLtB a.2 b.2 = true ∨ a.2 = b.2))

instance : DecidableRel pyKeyLE := fun a b => by
  unfold pyKeyLE
  infer_instance

/-- One probe target: `(store, ip)` as handed to `parallel_ping`. -/
abbrev Target := String × String

/-- One gateway probe target: `(store, server_ip, gateway_ip)`. -/
abbrev GwTriple := String × String × String

/-- Sort order used on `(store, ip)` pairs: `key=lambda x: store_sort_key(x[0])`. -/
def target_le (a b : Target) : Prop := pyKeyLE (store_sort_key a.1) (store_sort_key b.1)

instance : DecidableRel target_le := fun a b => by
  unfold target_le
  infer_instance

/-- Sort order used on gateway triples: `key=lambda x: store_sort_key(x[0])`. -/
def triple_le (a b : GwTriple) : Prop := pyKeyLE (store_sort_key a.1) (store_sort_key b.1)

instance : DecidableRel triple_le := fun a b => by
  unfold triple_le
  infer_instance

/-- Result of one OS ping subprocess invocation, chosen by the environment:
`.ok rc` is the process return code, `.error e` a raised exception. -/
abbrev SubprocResult := Except String Int

/-- Model of `ping_host` (sauron.py:132): an empty address is an immediate
failure with no subprocess started; otherwise success is "return code 0", and
any exception from the subprocess machinery is caught and counts as failure. -/
def ping_host (subproc : SubprocResult) (ip : String) : Bool :=
  if ip = "" then false
  else
    match subproc with
    | .ok rc => rc == 0
    | .error _ => false

/-- Whether one completed probe task counts as a success (`ok` in
`parallel_ping`'s collection loop, sauron.py:482-486). -/
def task_ok (p : Target × SubprocResult) : Bool := ping_host p.2 p.1.2

/-- Model of `parallel_ping` (sauron.py:461): the environment hands over the
completed futures in completion order, each paired with its subprocess result;
the loop partitions them into successes and failures and both lists are then
stably sorted by `store_sort_key` of the identity. -/
def parallel_ping (completed : List (Target × SubprocResult)) :
    List Target × List Target :=
  let successes := (completed.filter (fun p => task_ok p)).map (·.1)
  let failures := (completed.filter (fun p => !task_ok p)).map (·.1)
  (List.insertionSort target_le successes, List.insertionSort target_le failures)

/-- Model of the octet grammar accepted by `ipaddress.ip_address` for IPv4:
ASCII digits only, no leading zero (unless the octet is exactly "0"), value at
most 255. -/
def isValidOctet (cs : List Char) : Bool :=
  !cs.isEmpty && cs.all Char.isDigit && cs.length ≤ 3 &&
    (cs.length == 1 || cs.headD ' ' != '0') && digitsVal cs ≤ 255

/-- Whether `ipaddress.ip_address` parses the string as an IPv4 address
(four dot-separated valid octets). -/
def isValidIPv4 (s : String) : Bool :=
  let parts := splitDots s.data
  parts.length == 4 && parts.all isValidOctet

/-- Model of `derive_gateway_ip` (sauron.py:155): for a valid IPv4 server
address, replace the final octet with the sentinel "1"; anything else
(exceptions, IPv6, malformed strings) yields the empty string. -/
def derive_gateway_ip (server_ip : String) : String :=
  if isValidIPv4 server_ip then
    match splitDots server_ip.data with
    | [a, b, c, _] => ⟨a ++ '.' :: (b ++ '.' :: (c ++ '.' :: ['1']))⟩
    | _ => ""
  else ""

/-! ## Data model -/

/-- One usable inventory row as produced by `load_rows` (sauron.py:192):
`StoreNumber` and `IPAddress` are non-empty after stripping (rows failing that
are skipped by the loader and never reach the pipeline); the other fields are
optional metadata. -/
structure Rec where
  store : String
  ip : String
  gateway : String
  addr : String
  city : String
  stateName : String
  zipCode : String
  latitude : Option Rat
  longitude : Option Rat
deriving DecidableEq, Repr

/-- One row of the previous "latest" snapshot as loaded back from
`map_status_latest.json` (the schema this program itself writes; booleans are
the strings "true"/"false"). -/
structure PrevRow where
  store : String
  server_ip : String
  server_up : String
  timestamp : String
deriving DecidableEq, Repr

/-- One row of `failures_detail` (sauron.py:849-863). -/
structure FailRow where
  timestamp : String
  run_id : String
  store : String
  dc_code : String
  dc_name : String
  server_ip : String
  stage_failed : String
  gateway_ip : String
  gateway_up : String
deriving DecidableEq, Repr

/-- One full map-status snapshot row (sauron.py:909-927).  `server_up` is the
string "true"/"false"; `gateway_up` is the tri-valued string "" (unknown) /
"true" / "false". -/
structure MapRow where
  timestamp : String
  run_id : String
  store : String
  dc_code : String
  dc_name : String
  server_ip : String
  gateway_ip : String
  server_up : String
  gateway_up : String
  status : String
  status_code : Nat
  latitude : Option Rat
  longitude : Option Rat
  addr : String
  city : String
  stateName : String
  zipCode : String
deriving DecidableEq, Repr

/-- A `back_online` item: the copied new row plus the extra
`last_seen_offline_at` key (sauron.py:945-947). -/
structure BackRow where
  row : MapRow
  last_seen_offline_at : String
deriving DecidableEq, Repr

/-- One alert record (sauron.py:956-964). -/
structure AlertRow where
  run_id : String
  timestamp : String
  alert_type : String
  item_count : Nat
  sent : Bool
  delivery_ok : Option Bool
  delivery_detail : String
  message : String
deriving DecidableEq, Repr

/-- The run summary object (sauron.py:1008-1025).  Wall-clock durations are
not modelled. -/
structure Summary where
  timestamp : String
  run_id : String
  input_csv : String
  total_stores : Nat
  initial_responding : Nat
  initial_timeouts : Nat
  recovered_after_retry : Nat
  recovered_after_final_confirm : Nat
  final_timeouts : Nat
  gateway_check_enabled : Bool
  gateway_online_count : Nat
  gateway_offline_count : Nat
  new_offline_count : Nat
  back_online_count : Nat
deriving DecidableEq, Repr

/-- The probe passes driven by `_run_once`. -/
inductive Pass where
  | initial
  | retry
  | confirm
deriving DecidableEq, Repr

/-- The CLI arguments `_run_once` consults (after `main`'s preset handling).
Ping counts and timeouts are forwarded to the OS ping command whose outcome
the environment chooses, so they carry no information of their own here. -/
structure Args where
  storesCsv : String
  retryPings : Int
  gatewayCheck : Bool
  runId : String
  teamsWebhook : String
  alertMaxItems : Int
deriving Repr

/-- The effectful outside world of one `_run_once` call.
`sched p ts` is the completion-ordered list of (target, subprocess result)
pairs for the server pass `p` submitted on targets `ts`; `gwSched` likewise
for the gateway pass.  `prevData` is the parsed content of
`map_status_latest.json` (`none` for a missing, unreadable or non-list file).
`transport url msg` is the webhook POST: response body or raised exception.
`runStamp` is the timestamp-derived default run id, `runTs` the ISO timestamp
taken when scanning completes. -/
structure Env where
  sched : Pass → List Target → List (Target × SubprocResult)
  gwSched : List GwTriple → List (GwTriple × SubprocResult)
  prevData : Option (List PrevRow)
  transport : String → String → Except String String
  runStamp : String
  runTs : String

/-! ## Pipeline stages -/

/-- The `store_to_gateway` dict (sauron.py:754): store number to stripped
configured gateway, later rows overwriting earlier ones, missing keys "". -/
def store_to_gateway (rows : List Rec) (store : String) : String :=
  (((rows.reverse.find? (fun r => r.store == store)).map (fun r => pyStrip r.gateway)).getD "")

/-- The gateway address used for one failed target
(`store_to_gateway.get(store, "") or derive_gateway_ip(srv_ip)`,
sauron.py:515 and sauron.py:852): the configured gateway when non-empty,
else the derived ".1" address (possibly ""). -/
def gw_addr (st2gw : String → String) (t : Target) : String :=
  if st2gw t.1 ≠ "" then st2gw t.1 else derive_gateway_ip t.2

/-- The gateway targets selected in `check_gateways_for_failures`
(sauron.py:513-517): configured gateway if non-empty, else the derived
".1" address, skipping stores with neither. -/
def gw_targets_of (failures : List Target) (st2gw : String → String) : List GwTriple :=
  failures.filterMap fun t =>
    if gw_addr st2gw t ≠ "" then some (t.1, t.2, gw_addr st2gw t) else none

/-- Model of `check_gateways_for_failures` (sauron.py:501): ping each failed
store's gateway address, partition into (online, offline), sort both. -/
def check_gateways_for_failures (gwSched : List GwTriple → List (GwTriple × SubprocResult))
    (failures : List Target) (st2gw : String → String) :
    List GwTriple × List GwTriple :=
  let ts := gw_targets_of failures st2gw
  if ts.isEmpty then ([], [])
  else
    let completed := gwSched ts
    let gwOk := fun (p : GwTriple × SubprocResult) => ping_host p.2 p.1.2.2
    let online := (completed.filter (fun p => gwOk p)).map (·.1)
    let offline := (completed.filter (fun p => !gwOk p)).map (·.1)
    (List.insertionSort triple_le online, List.insertionSort triple_le offline)

/-- Model of `load_latest_map_status` (sauron.py:612): a missing/corrupt/
non-list file yields the empty map; rows with blank store or server_ip are
skipped; the rest keyed by (stripped store, stripped server_ip) into a dict,
later rows overwriting earlier ones. -/
def load_latest_map_status (data : Option (List PrevRow)) :
    List ((String × String) × PrevRow) :=
  match data with
  | none => []
  | some rows =>
    rows.foldl
      (fun m r =>
        let s := pyStrip r.store
        let ip := pyStrip r.server_ip
        if s ≠ "" ∧ ip ≠ "" then
          if m.any (fun e => e.1 = (s, ip)) then
            m.map (fun e => if e.1 = (s, ip) then ((s, ip), r) else e)
          else m ++ [((s, ip), r)]
        else m)
      []

/-- Dict lookup on the loaded previous map. -/
def prev_lookup (m : List ((String × String) × PrevRow)) (k : String × String) :
    Option PrevRow :=
  (m.find? (fun e => e.1 == k)).map (·.2)

/-- The status derivation inlined in `_run_once` (sauron.py:898-907): server
up is green/0; otherwise a gateway known to be up is yellow/1 and anything
else (gateway down, or unknown) is red/2. -/
def classify_status (server_up : Bool) (gateway_up : Option Bool) : String × Nat :=
  if server_up then ("green", 0)
  else if gateway_up = some true then ("yellow", 1)
  else ("red", 2)

/-- Encoding of the tri-valued gateway field into the persisted row
(sauron.py:918): unknown is the empty string. -/
def encode_gateway : Option Bool → String
  | none => ""
  | some true => "true"
  | some false => "false"

/-- Decoding of the persisted tri-valued gateway field (sauron.py:892-896). -/
def decode_gateway (s : String) : Option Bool :=
  if s == "true" then some true
  else if s == "false" then some false
  else none

/-- The DC display name: `dc_map.get(dc_code, f"Unknown DC {dc_code}")`. -/
def dc_name_of (dcMap : String → Option String) (dc_code : String) : String :=
  (dcMap dc_code).getD ("Unknown DC " ++ dc_code)

/-- Building `failures_detail` before gateway results are merged in
(sauron.py:848-863). -/
def build_failures_detail (finalFailures initialFailures : List Target)
    (st2gw : String → String) (dcMap : String → Option String)
    (run_id run_ts : String) : List FailRow :=
  finalFailures.map fun t =>
    let dc_code := first4_digits t.1
    let gw_ip := gw_addr st2gw t
    { timestamp := run_ts
      run_id := run_id
      store := t.1
      dc_code := dc_code
      dc_name := dc_name_of dcMap dc_code
      server_ip := t.2
      stage_failed := if initialFailures.isEmpty then "initial" else "retry"
      gateway_ip := gw_ip
      gateway_up := "" }

/-- The `gw_lookup` dict fill-in (sauron.py:864-873): online entries are set
to True first, offline entries overwrite to False afterwards. -/
def gw_lookup (gwOnline gwOffline : List GwTriple) (k : String × String) :
    Option Bool :=
  if gwOffline.any (fun t => t.1 == k.1 && t.2.1 == k.2) then some false
  else if gwOnline.any (fun t => t.1 == k.1 && t.2.1 == k.2) then some true
  else none

/-- Merging gateway results into `failures_detail` (sauron.py:864-873). -/
def apply_gateway_results (gatewayCheck : Bool) (gwOnline gwOffline : List GwTriple)
    (fds : List FailRow) : List FailRow :=
  if gatewayCheck ∧ ¬ (gwOnline.isEmpty ∧ gwOffline.isEmpty) then
    fds.map fun r =>
      match gw_lookup gwOnline gwOffline (r.store, r.server_ip) with
      | some b => { r with gateway_up := if b then "true" else "false" }
      | none => r
  else fds

/-- The `failure_map` dict lookup (sauron.py:876): keyed by
(store, server_ip), later failure rows overwriting earlier ones. -/
def failure_lookup (fds : List FailRow) (store ip : String) : Option FailRow :=
  fds.reverse.find? (fun d => d.store == store && d.server_ip == ip)

/-- Building one full map-status row (sauron.py:878-927). -/
def build_map_row (fds : List FailRow) (dcMap : String → Option String)
    (run_id run_ts : String) (rec : Rec) : MapRow :=
  let dc_code := first4_digits rec.store
  let gw_ip := if pyStrip rec.gateway ≠ "" then pyStrip rec.gateway
    else derive_gateway_ip rec.ip
  let fd := failure_lookup fds rec.store rec.ip
  let server_up := fd.isNone
  let gateway_up : Option Bool :=
    match fd with
    | none => none
    | some d => decode_gateway d.gateway_up
  let st := classify_status server_up gateway_up
  { timestamp := run_ts
    run_id := run_id
    store := rec.store
    dc_code := dc_code
    dc_name := dc_name_of dcMap dc_code
    server_ip := rec.ip
    gateway_ip := gw_ip
    server_up := if server_up then "true" else "false"
    gateway_up := encode_gateway gateway_up
    status := st.1
    status_code := st.2
    latitude := rec.latitude
    longitude := rec.longitude
    addr := rec.addr
    city := rec.city
    stateName := rec.stateName
    zipCode := rec.zipCode }

/-- Transition detection (sauron.py:929-947): skipped entirely when the
previous map is empty; otherwise a new row whose previous row (by
(store, server_ip) key) was up and is now down goes to `new_offlines`, and the
reverse direction goes to `back_online` carrying the previous timestamp. -/
def detect_transitions (prev : List ((String × String) × PrevRow))
    (rows : List MapRow) : List MapRow × List BackRow :=
  if prev.isEmpty then ([], [])
  else
    (rows.filter fun row =>
      match prev_lookup prev (row.store, row.server_ip) with
      | some p => to_bool p.server_up && !to_bool row.server_up
      | none => false,
     rows.filterMap fun row =>
      match prev_lookup prev (row.store, row.server_ip) with
      | some p =>
        if !to_bool p.server_up && to_bool row.server_up then
          some { row := row, last_seen_offline_at := p.timestamp }
        else none
      | none => none)

/-- Model of `build_offline_alert_message` (sauron.py:632). -/
def build_offline_alert_message (new_offlines : List MapRow)
    (run_id run_ts : String) (max_items : Nat) : String :=
  let headerLines := ["New offline stores detected: " ++ toString new_offlines.length,
    "Run: " ++ run_id ++ " @ " ++ run_ts]
  let itemLines := (new_offlines.take max_items).map fun row =>
    "- " ++ row.store ++ " (" ++ row.dc_name ++ ") " ++ row.server_ip ++
      " status=" ++ row.status
  let remaining : Int := (new_offlines.length : Int) - (max_items : Int)
  let moreLines := if remaining > 0 then ["...and " ++ toString remaining ++ " more"] else []
  String.intercalate "\n" (headerLines ++ itemLines ++ moreLines)

/-- Model of `build_back_online_alert_message` (sauron.py:648). -/
def build_back_online_alert_message (back_online : List BackRow)
    (run_id run_ts : String) (max_items : Nat) : String :=
  let headerLines := ["Stores back online: " ++ toString back_online.length,
    "Run: " ++ run_id ++ " @ " ++ run_ts]
  let itemLines := (back_online.take max_items).map fun b =>
    "- Store back online - Last seen offline at " ++ b.last_seen_offline_at ++
      ": " ++ b.row.store ++ " (" ++ b.row.dc_name ++ ") " ++ b.row.server_ip
  let remaining : Int := (back_online.length : Int) - (max_items : Int)
  let moreLines := if remaining > 0 then ["...and " ++ toString remaining ++ " more"] else []
  String.intercalate "\n" (headerLines ++ itemLines ++ moreLines)

/-- Model of `send_teams_webhook` (sauron.py:667): a successful POST returns
(True, body); every raised exception is caught and reported as
(False, detail) -- the function never propagates an error. -/
def send_teams_webhook (transport : String → String → Except String String)
    (url message : String) : Bool × String :=
  match transport url message with
  | .ok body => (true, body)
  | .error detail => (false, detail)

/-- One alert record as `_run_once` builds it (sauron.py:956-972 and
sauron.py:984-1000): `sent` records whether a webhook URL is configured;
delivery is attempted, and its outcome written into the record, only in that
case. -/
def mk_alert (transport : String → String → Except String String)
    (webhook : String) (run_id run_ts atype : String) (cnt : Nat) (msg : String) :
    AlertRow :=
  let base : AlertRow :=
    { run_id := run_id, timestamp := run_ts, alert_type := atype,
      item_count := cnt, sent := webhook ≠ "",
      delivery_ok := none, delivery_detail := "", message := msg }
  if webhook ≠ "" then
    let d := send_teams_webhook transport webhook msg
    { base with delivery_ok := some d.1, delivery_detail := d.2 }
  else base

/-- Building the alert rows for one run (sauron.py:949-1003): one record per
non-empty transition list, `sent` iff a webhook URL is configured, delivery
attempted (and its outcome recorded) only in that case. -/
def build_alerts (transport : String → String → Except String String)
    (webhook : String) (alertMaxItems : Int) (run_id run_ts : String)
    (new_offlines : List MapRow) (back_online : List BackRow) : List AlertRow :=
  let maxItems := (max 1 alertMaxItems).toNat
  let offlineRows :=
    if new_offlines.isEmpty then []
    else
      [mk_alert transport webhook run_id run_ts "offline" new_offlines.length
        (build_offline_alert_message new_offlines run_id run_ts maxItems)]
  let onlineRows :=
    if back_online.isEmpty then []
    else
      [mk_alert transport webhook run_id run_ts "back_online" back_online.length
        (build_back_online_alert_message back_online run_id run_ts maxItems)]
  offlineRows ++ onlineRows

/-- Results of the probe passes of one run (sauron.py:776-841). -/
structure PassResults where
  initialSuccesses : List Target
  initialFailures : List Target
  recoveredCount : Nat
  preConfirmFailures : List Target
  confirmRecoveredCount : Nat
  finalFailures : List Target
  gwOnline : List GwTriple
  gwOffline : List GwTriple
deriving DecidableEq, Repr

/-- The initial pass (sauron.py:777): one ping per target, full inventory. -/
def initial_pass (env : Env) (targets : List Target) : List Target × List Target :=
  parallel_ping (env.sched Pass.initial targets)

/-- The retry stage (sauron.py:788-805): runs only when there were initial
failures and `retry_pings > 0`; yields (recovered count, failures so far). -/
def after_retry (env : Env) (args : Args) (targets : List Target) :
    Nat × List Target :=
  let initial := initial_pass env targets
  if ¬ initial.2.isEmpty ∧ args.retryPings > 0 then
    let retry := parallel_ping (env.sched Pass.retry initial.2)
    (retry.1.length, retry.2)
  else (0, initial.2)

/-- The pass controller of `_run_once` (sauron.py:776-841): initial pass on
all targets; a retry pass only when there were initial failures and
`retry_pings > 0`; then, only when gateway checking is enabled and failures
remain after retry, a final-confirm pass on those failures and the gateway
check on the same pre-confirm failure list. -/
def run_passes (env : Env) (args : Args) (targets : List Target)
    (st2gw : String → String) : PassResults :=
  let initial := initial_pass env targets
  let afterRetry := after_retry env args targets
  if args.gatewayCheck ∧ ¬ afterRetry.2.isEmpty then
    let pre := afterRetry.2
    let confirm := parallel_ping (env.sched Pass.confirm pre)
    let gw := check_gateways_for_failures env.gwSched pre st2gw
    { initialSuccesses := initial.1
      initialFailures := initial.2
      recoveredCount := afterRetry.1
      preConfirmFailures := pre
      confirmRecoveredCount := confirm.1.length
      finalFailures := confirm.2
      gwOnline := gw.1
      gwOffline := gw.2 }
  else
    { initialSuccesses := initial.1
      initialFailures := initial.2
      recoveredCount := afterRetry.1
      preConfirmFailures := []
      confirmRecoveredCount := 0
      finalFailures := afterRetry.2
      gwOnline := []
      gwOffline := [] }

/-- Everything one completed run computes and persists. -/
structure RunResult where
  summary : Summary
  failuresDetail : List FailRow
  mapRows : List MapRow
  newOfflines : List MapRow
  backOnline : List BackRow
  alertRows : List AlertRow
  initialFailures : List Target
  preConfirmFailures : List Target
  finalFailures : List Target
  gwOnline : List GwTriple
  gwOffline : List GwTriple
deriving DecidableEq, Repr

/-- The effective run id (sauron.py:759): the `--run-id` argument if
non-empty, else the timestamp-derived id, stripped. -/
def runId_of (env : Env) (args : Args) : String :=
  pyStrip (if args.runId = "" then env.runStamp else args.runId)

/-- The probe target list (sauron.py:771). -/
def targets_of (rows : List Rec) : List Target :=
  rows.map fun r => (r.store, r.ip)

/-- The pass results of one run. -/
def passes_of (env : Env) (args : Args) (rows : List Rec) : PassResults :=
  run_passes env args (targets_of rows) (store_to_gateway rows)

/-- The completed `failures_detail` of one run (sauron.py:848-873). -/
def fd_of (env : Env) (args : Args) (dcMap : String → Option String)
    (rows : List Rec) : List FailRow :=
  apply_gateway_results args.gatewayCheck (passes_of env args rows).gwOnline
    (passes_of env args rows).gwOffline
    (build_failures_detail (passes_of env args rows).finalFailures
      (passes_of env args rows).initialFailures (store_to_gateway rows) dcMap
      (runId_of env args) env.runTs)

/-- The full map-status snapshot of one run (sauron.py:875-927), one row per
inventory row, in inventory order. -/
def mapRows_of (env : Env) (args : Args) (dcMap : String → Option String)
    (rows : List Rec) : List MapRow :=
  rows.map (build_map_row (fd_of env args dcMap rows) dcMap (runId_of env args) env.runTs)

/-- The detected transitions of one run (sauron.py:929-947). -/
def trans_of (env : Env) (args : Args) (dcMap : String → Option String)
    (rows : List Rec) : List MapRow × List BackRow :=
  detect_transitions (load_latest_map_status env.prevData) (mapRows_of env args dcMap rows)

/-- The alert rows of one run (sauron.py:949-1003). -/
def alerts_of (env : Env) (args : Args) (dcMap : String → Option String)
    (rows : List Rec) : List AlertRow :=
  build_alerts env.transport args.teamsWebhook args.alertMaxItems
    (runId_of env args) env.runTs (trans_of env args dcMap rows).1
    (trans_of env args dcMap rows).2

/-- The run summary of one run (sauron.py:1008-1025). -/
def summary_of (env : Env) (args : Args) (dcMap : String → Option String)
    (rows : List Rec) : Summary :=
  { timestamp := env.runTs
    run_id := runId_of env args
    input_csv := args.storesCsv
    total_stores := rows.length
    initial_responding := (passes_of env args rows).initialSuccesses.length
    initial_timeouts := (passes_of env args rows).initialFailures.length
    recovered_after_retry := (passes_of env args rows).recoveredCount
    recovered_after_final_confirm := (passes_of env args rows).confirmRecoveredCount
    final_timeouts := (passes_of env args rows).finalFailures.length
    gateway_check_enabled := args.gatewayCheck
    gateway_online_count := (passes_of env args rows).gwOnline.length
    gateway_offline_count := (passes_of env args rows).gwOffline.length
    new_offline_count := (trans_of env args dcMap rows).1.length
    back_online_count := (trans_of env args dcMap rows).2.length }

/-- Everything a non-aborted run computes and persists. -/
def run_core (env : Env) (args : Args) (dcMap : String → Option String)
    (rows : List Rec) : RunResult :=
  { summary := summary_of env args dcMap rows
    failuresDetail := fd_of env args dcMap rows
    mapRows := mapRows_of env args dcMap rows
    newOfflines := (trans_of env args dcMap rows).1
    backOnline := (trans_of env args dcMap rows).2
    alertRows := alerts_of env args dcMap rows
    initialFailures := (passes_of env args rows).initialFailures
    preConfirmFailures := (passes_of env args rows).preConfirmFailures
    finalFailures := (passes_of env args rows).finalFailures
    gwOnline := (passes_of env args rows).gwOnline
    gwOffline := (passes_of env args rows).gwOffline }

/-- Model of `_run_once` (sauron.py:735).  The `.error code` result models
`sys.exit(code)` before any probing and before any output artifact (file,
SQLite row, published feed) is produced; `.ok` carries every computed and
persisted artifact of the run.  The zero-usable-rows check (sauron.py:750-752)
is `sys.exit(0)`. -/
def runOnce (env : Env) (args : Args) (dcMap : String → Option String)
    (rows : List Rec) : Except Nat RunResult :=
  if rows.length = 0 then .error 0
  else .ok (run_core env args dcMap rows)

instance {ε α : Type _} [DecidableEq ε] [DecidableEq α] : DecidableEq (Except ε α) :=
  fun a b =>
    match a, b with
    | .ok x, .ok y =>
      if h : x = y then .isTrue (by rw [h]) else .isFalse (by intro hc; cases hc; exact h rfl)
    | .error x, .error y =>
      if h : x = y then .isTrue (by rw [h]) else .isFalse (by intro hc; cases hc; exact h rfl)
    | .ok _, .error _ => .isFalse (by intro hc; cases hc)
    | .error _, .ok _ => .isFalse (by intro hc; cases hc)

/-! ## Historical store (SQLite) -/

/-- One stored `store_status_events` row after the Python-to-SQL conversion in
`write_run_to_sqlite` (sauron.py:405-424): `server_up` becomes 0/1,
`gateway_up` becomes NULL when the tri-valued string is blank. -/
structure DbEvent where
  run_id : String
  timestamp : String
  store : String
  dc_code : String
  dc_name : String
  server_ip : String
  gateway_ip : String
  server_up : Bool
  gateway_up : Option Bool
  status : String
  status_code : Nat
  latitude : Option Rat
  longitude : Option Rat
  addr : String
  city : String
  stateName : String
  zipCode : String
deriving DecidableEq, Repr

/-- One stored `alerts` row (sauron.py:437-448). -/
structure DbAlert where
  run_id : String
  timestamp : String
  alert_type : String
  item_count : Nat
  sent : Bool
  delivery_ok : Option Bool
  delivery_detail : String
  message : String
deriving DecidableEq, Repr

/-- The SQLite historical store: `runs` keyed by run_id (primary key),
`store_status_events` and `alerts` rows tagged with a run_id. -/
structure Db where
  runs : List (String × Summary)
  events : List DbEvent
  alerts : List DbAlert
deriving DecidableEq, Repr

/-- The freshly initialised (or already existing) store. -/
def emptyDb : Db := { runs := [], events := [], alerts := [] }

/-- Conversion of one map-status row into its stored event row
(sauron.py:405-424). -/
def dbEventOfRow (r : MapRow) : DbEvent :=
  { run_id := r.run_id
    timestamp := r.timestamp
    store := r.store
    dc_code := r.dc_code
    dc_name := r.dc_name
    server_ip := r.server_ip
    gateway_ip := r.gateway_ip
    server_up := to_bool r.server_up
    gateway_up := if pyStrip r.gateway_up = "" then none else some (to_bool r.gateway_up)
    status := r.status
    status_code := r.status_code
    latitude := r.latitude
    longitude := r.longitude
    addr := r.addr
    city := r.city
    stateName := r.stateName
    zipCode := r.zipCode }

/-- Conversion of one alert record into its stored row (sauron.py:437-448). -/
def dbAlertOfRow (a : AlertRow) : DbAlert :=
  { run_id := a.run_id
    timestamp := a.timestamp
    alert_type := a.alert_type
    item_count := a.item_count
    sent := a.sent
    delivery_ok := a.delivery_ok
    delivery_detail := a.delivery_detail
    message := a.message }

/-- Model of `write_run_to_sqlite` (sauron.py:364): `INSERT OR REPLACE` of the
run summary under its primary key, then delete-and-reinsert of that run's
event rows and alert rows. -/
def write_run_to_sqlite (db : Db) (summary : Summary) (mapRows : List MapRow)
    (alertRows : List AlertRow) : Db :=
  let rid := summary.run_id
  { runs := db.runs.filter (fun r => r.1 ≠ rid) ++ [(rid, summary)]
    events := db.events.filter (fun e => e.run_id ≠ rid) ++ mapRows.map dbEventOfRow
    alerts := db.alerts.filter (fun a => a.run_id ≠ rid) ++ alertRows.map dbAlertOfRow }

/-- One write to the historical store: the run summary plus the snapshot and
alert rows of the run. -/
structure WriteOp where
  summary : Summary
  mapRows : List MapRow
  alertRows : List AlertRow
deriving DecidableEq, Repr

/-- A sequence of runs written to an initially fresh store. -/
def apply_writes (ws : List WriteOp) : Db :=
  ws.foldl (fun db w => write_run_to_sqlite db w.summary w.mapRows w.alertRows) emptyDb

/-- The most recent write carrying a given run identifier. -/
def last_write_for (ws : List WriteOp) (rid : String) : Option WriteOp :=
  ws.reverse.find? (fun w => w.summary.run_id == rid)

/-- An alert record with its delivery-outcome fields blanked, used to state
that everything except the recorded delivery outcome is independent of the
webhook transport's behaviour. -/
def stripDelivery (a : AlertRow) : AlertRow :=
  { a with delivery_ok := none, delivery_detail := "" }

/-! ## Concrete fixtures (used by witness and counterexample theorems) -/

/-- An environment whose probe outcomes are a fixed function of the pass and
target, delivered in submission order, with a configurable previous snapshot
and webhook transport. -/
def mkEnv (outcome : Pass → Target → Bool) (gw : GwTriple → Bool)
    (prevData : Option (List PrevRow))
    (transport : String → String → Except String String) : Env :=
  { sched := fun p ts => ts.map fun t =>
      (t, Except.ok (if outcome p t then (0 : Int) else 1))
    gwSched := fun ts => ts.map fun t => (t, Except.ok (if gw t then (0 : Int) else 1))
    prevData := prevData
    transport := transport
    runStamp := "20260101_000000"
    runTs := "2026-01-01T00:00:00" }

/-- Baseline arguments: gateway checking on, no webhook. -/
def baseArgs : Args :=
  { storesCsv := "stores.csv", retryPings := 5, gatewayCheck := true,
    runId := "", teamsWebhook := "", alertMaxItems := 25 }

/-- Inventory row for store 1001. -/
def rec1001 : Rec :=
  { store := "1001", ip := "10.0.0.5", gateway := "", addr := "", city := "",
    stateName := "", zipCode := "", latitude := none, longitude := none }

/-- Inventory row for store 2002 with a configured gateway. -/
def rec2002 : Rec :=
  { store := "2002", ip := "10.0.1.7", gateway := "10.9.9.9", addr := "", city := "",
    stateName := "", zipCode := "", latitude := none, longitude := none }

/-- Environment in which store 1001 fails the initial and retry passes but
answers the final-confirm pass, while everything else (including every
gateway) responds. -/
def envRecover : Env :=
  mkEnv (fun p t => ¬ (t.1 = "1001" ∧ (p = Pass.initial ∨ p = Pass.retry)))
    (fun _ => true) none (fun _ _ => Except.ok "ok")

/-- Environment in which every probe of every pass fails. -/
def envAllDown : Env :=
  mkEnv (fun _ _ => false) (fun _ => false) none (fun _ _ => Except.ok "ok")

/-- A webhook transport that always succeeds. -/
def okTransport : String → String → Except String String := fun _ _ => Except.ok "ok"

/-- A variant of `mkEnv` that delivers the completed probes of every pass in
reversed submission order (every completion order is a permutation of the
submissions, so this is one admissible executor behaviour). -/
def mkEnvRev (outcome : Pass → Target → Bool) (gw : GwTriple → Bool)
    (prevData : Option (List PrevRow))
    (transport : String → String → Except String String) : Env :=
  { mkEnv outcome gw prevData transport with
    sched := fun p ts =>
      (ts.map fun t =>
        (t, Except.ok (if outcome p t then (0 : Int) else 1))).reverse
    gwSched := fun ts =>
      (ts.map fun t => (t, Except.ok (if gw t then (0 : Int) else 1))).reverse }

/-- Baseline arguments with gateway checking disabled. -/
def argsNoGw : Args := { baseArgs with gatewayCheck := false }

/-- Baseline arguments with a webhook URL configured. -/
def argsHook : Args := { baseArgs with teamsWebhook := "https://example.invalid/hook" }

/-- A previous "latest" snapshot in which store 1001 was up. -/
def prevUp1001 : List PrevRow :=
  [{ store := "1001", server_ip := "10.0.0.5", server_up := "true",
     timestamp := "2025-12-31T23:00:00" }]

/-- Environment where every probe fails, with a previous snapshot that saw
store 1001 up, and a webhook transport that raises. -/
def envDown : Env :=
  mkEnv (fun _ _ => false) (fun _ => false) (some prevUp1001)
    (fun _ _ => Except.error "connection refused")

/-- Environment where every server probe fails but every gateway answers. -/
def envDownGwUp : Env :=
  mkEnv (fun _ _ => false) (fun _ => true) none okTransport

/-- A placeholder map row (used only to select elements of computed lists in
closed statements). -/
def dummyRow : MapRow :=
  { timestamp := "", run_id := "", store := "", dc_code := "", dc_name := "",
    server_ip := "", gateway_ip := "", server_up := "", gateway_up := "",
    status := "", status_code := 0, latitude := none, longitude := none,
    addr := "", city := "", stateName := "", zipCode := "" }

/-- A placeholder alert row. -/
def dummyAlert : AlertRow :=
  { run_id := "", timestamp := "", alert_type := "", item_count := 0,
    sent := false, delivery_ok := none, delivery_detail := "", message := "" }

/-- A completed batch in which the same target was submitted twice and the two
probes disagreed (the host answered one ping and dropped the other). -/
def dupCompleted : List (Target × SubprocResult) :=
  [((("1", "10.0.0.5")), Except.ok 0), ((("1", "10.0.0.5")), Except.ok 1)]

/-- A completed batch with an empty-address target and a target whose probe
machinery raised. -/
def mixedCompleted : List (Target × SubprocResult) :=
  [((("2", "")), Except.ok 0), ((("1", "a")), Except.error "boom")]

/-- Two targets sharing the identity "1" (with different addresses), both
failing, completed in submission order. -/
def tieCompletedA : List (Target × SubprocResult) :=
  [((("1", "a")), Except.ok 1), ((("1", "b")), Except.ok 1)]

/-- The same completed outcomes as `tieCompletedA`, delivered in the opposite
order. -/
def tieCompletedB : List (Target × SubprocResult) :=
  [((("1", "b")), Except.ok 1), ((("1", "a")), Except.ok 1)]

/-- A run summary for run id "r1". -/
def sumR1 : Summary :=
  { timestamp := "t1", run_id := "r1", input_csv := "s.csv", total_stores := 1,
    initial_responding := 1, initial_timeouts := 0, recovered_after_retry := 0,
    recovered_after_final_confirm := 0, final_timeouts := 0,
    gateway_check_enabled := false, gateway_online_count := 0,
    gateway_offline_count := 0, new_offline_count := 0, back_online_count := 0 }

/-- A second, different summary carrying the same run id "r1". -/
def sumR1b : Summary := { sumR1 with timestamp := "t2", total_stores := 2 }

/-- A first write of run "r1". -/
def writeA : WriteOp :=
  { summary := sumR1,
    mapRows := [build_map_row [] (fun _ => none) "r1" "t1" rec1001],
    alertRows := [] }

/-- A re-run write of run "r1" with different rows and an alert. -/
def writeB : WriteOp :=
  { summary := sumR1b,
    mapRows := [build_map_row [] (fun _ => none) "r1" "t2" rec1001,
      build_map_row [] (fun _ => none) "r1" "t2" rec2002],
    alertRows := [mk_alert okTransport "" "r1" "t2" "offline" 1 "msg"] }

/-! ## Lemmas about the sort order -/

theorem charsLtB_cons_iff (a b : Char) (as bs : List Char) :
    charsLtB (a :: as) (b :: bs) = true ↔ (a < b ∨ (a = b ∧ charsLtB as bs = true)) := by
  by_cases h1 : a < b
  · simp [charsLtB, h1]
  · by_cases h2 : b < a
    · have hne : a ≠ b := fun he => absurd (he ▸ h2) (lt_irrefl _)
      simp [charsLtB, h1, h2, hne]
    · have he : a = b := le_antisymm (not_lt.mp h2) (not_lt.mp h1)
      simp [charsLtB, h1, h2, he]

theorem charsLtB_irrefl : ∀ cs : List Char, charsLtB cs cs = false
  | [] => rfl
  | c :: t => by simp [charsLtB, lt_irrefl, charsLtB_irrefl t]

theorem charsLtB_trans :
    ∀ as bs cs : List Char, charsLtB as bs = true → charsLtB bs cs = true →
      charsLtB as cs = true := by
  intro as
  induction as with
  | nil =>
    intro bs cs h1 h2
    cases cs with
    | cons c ct => rfl
    | nil =>
      cases bs with
      | nil => exact h2
      | cons b bt => exact absurd h2 (by simp [charsLtB])
  | cons a as ih =>
    intro bs cs h1 h2
    cases bs with
    | nil => exact absurd h1 (by simp [charsLtB])
    | cons b bt =>
      cases cs with
      | nil => exact absurd h2 (by simp [charsLtB])
      | cons c ct =>
        rw [charsLtB_cons_iff] at h1 h2 ⊢
        rcases h1 with h1 | ⟨he1, h1⟩
        · rcases h2 with h2 | ⟨he2, _⟩
          · exact Or.inl (lt_trans h1 h2)
          · exact Or.inl (he2 ▸ h1)
        · rcases h2 with h2 | ⟨he2, h2⟩
          · exact Or.inl (he1 ▸ h2)
          · exact Or.inr ⟨he1.trans he2, ih bt ct h1 h2⟩

theorem charsLtB_total :
    ∀ as bs : List Char, charsLtB as bs = true ∨ charsLtB bs as = true ∨ as = bs := by
  intro as
  induction as with
  | nil =>
    intro bs
    cases bs with
    | nil => exact Or.inr (Or.inr rfl)
    | cons b bt => exact Or.inl rfl
  | cons a as ih =>
    intro bs
    cases bs with
    | nil => exact Or.inr (Or.inl rfl)
    | cons b bt =>
      rcases lt_trichotomy a b with h | h | h
      · exact Or.inl ((charsLtB_cons_iff a b as bt).mpr (Or.inl h))
      · rcases ih bt with h2 | h2 | h2
        · exact Or.inl ((charsLtB_cons_iff a b as bt).mpr (Or.inr ⟨h, h2⟩))
        · exact Or.inr (Or.inl ((charsLtB_cons_iff b a bt as).mpr (Or.inr ⟨h.symm, h2⟩)))
        · exact Or.inr (Or.inr (by rw [h, h2]))
      · exact Or.inr (Or.inl ((charsLtB_cons_iff b a bt as).mpr (Or.inl h)))

theorem pyKeyLE_total : ∀ a b : Nat × String, pyKeyLE a b ∨ pyKeyLE b a := by
  intro a b
  rcases lt_trichotomy a.1 b.1 with h | h | h
  · exact Or.inl (Or.inl h)
  · rcases charsLtB_total a.2.data b.2.data with h2 | h2 | h2
    · exact Or.inl (Or.inr ⟨h, Or.inl h2⟩)
    · exact Or.inr (Or.inr ⟨h.symm, Or.inl h2⟩)
    · exact Or.inl (Or.inr ⟨h, Or.inr (String.ext h2)⟩)
  · exact Or.inr (Or.inl h)

theorem pyKeyLE_trans : ∀ a b c : Nat × String, pyKeyLE a b → pyKeyLE b c → pyKeyLE a c := by
  intro a b c h1 h2
  rcases h1 with h1 | ⟨he1, hs1⟩
  · rcases h2 with h2 | ⟨he2, _⟩
    · exact Or.inl (lt_trans h1 h2)
    · exact Or.inl (he2 ▸ h1)
  · rcases h2 with h2 | ⟨he2, hs2⟩
    · exact Or.inl (he1 ▸ h2)
    · refine Or.inr ⟨he1.trans he2, ?_⟩
      rcases hs1 with hs1 | hs1
      · rcases hs2 with hs2 | hs2
        · exact Or.inl (charsLtB_trans _ _ _ hs1 hs2)
        · exact Or.inl (hs2 ▸ hs1)
      · rcases hs2 with hs2 | hs2
        · exact Or.inl (hs1 ▸ hs2)
        · exact Or.inr (hs1.trans hs2)

theorem pyKeyLE_antisymm : ∀ a b : Nat × String, pyKeyLE a b → pyKeyLE b a → a = b := by
  intro a b h1 h2
  rcases h1 with h1 | ⟨he1, hs1⟩
  · rcases h2 with h2 | ⟨he2, _⟩
    · exact absurd h2 (lt_asymm h1)
    · exact absurd h1 (by rw [he2]; exact lt_irrefl _)
  · rcases h2 with h2 | ⟨he2, hs2⟩
    · exact absurd h2 (by rw [he1]; exact lt_irrefl _)
    · have heq : a.2 = b.2 := by
        rcases hs1 with hs1 | hs1
        · rcases hs2 with hs2 | hs2
          · have := charsLtB_trans _ _ _ hs1 hs2
            simp [charsLtB_irrefl] at this
          · exact hs2.symm
        · exact hs1
      exact Prod.ext he1 heq

instance : IsTotal Target target_le :=
  ⟨fun a b => pyKeyLE_total (store_sort_key a.1) (store_sort_key b.1)⟩

instance : IsTrans Target target_le :=
  ⟨fun _ _ _ h1 h2 => pyKeyLE_trans _ _ _ h1 h2⟩

instance : IsTotal GwTriple triple_le :=
  ⟨fun a b => pyKeyLE_total (store_sort_key a.1) (store_sort_key b.1)⟩

instance : IsTrans GwTriple triple_le :=
  ⟨fun _ _ _ h1 h2 => pyKeyLE_trans _ _ _ h1 h2⟩

theorem store_sort_key_snd (s : String) : (store_sort_key s).2 = s := by
  unfold store_sort_key
  by_cases h : (leadingDigits s).isEmpty <;> simp [h]

theorem target_le_antisymm_store {a b : Target} (h1 : target_le a b) (h2 : target_le b a) :
    a.1 = b.1 := by
  have h := pyKeyLE_antisymm _ _ h1 h2
  have h2nd := congrArg Prod.snd h
  rwa [store_sort_key_snd, store_sort_key_snd] at h2nd

theorem triple_le_antisymm_store {a b : GwTriple} (h1 : triple_le a b) (h2 : triple_le b a) :
    a.1 = b.1 := by
  have h := pyKeyLE_antisymm _ _ h1 h2
  have h2nd := congrArg Prod.snd h
  rwa [store_sort_key_snd, store_sort_key_snd] at h2nd

/-- Two sorted lists that are permutations of each other are equal, provided
the order is antisymmetric on the members involved. -/
theorem sorted_perm_eq_on {α : Type _} {r : α → α → Prop} :
    ∀ l₁ l₂ : List α, l₁.Perm l₂ → l₁.Sorted r → l₂.Sorted r →
      (∀ a ∈ l₁, ∀ b ∈ l₁, r a b → r b a → a = b) → l₁ = l₂ := by
  intro l₁
  induction l₁ with
  | nil =>
    intro l₂ hp _ _ _
    exact hp.nil_eq
  | cons a t ih =>
    intro l₂ hp hs₁ hs₂ hanti
    cases l₂ with
    | nil => simpa using hp.length_eq
    | cons b u =>
      have hab : a = b := by
        have ha2 : a ∈ b :: u := hp.mem_iff.mp (List.mem_cons_self a t)
        rcases List.mem_cons.mp ha2 with h | h
        · exact h
        · have hb1 : b ∈ a :: t := hp.symm.mem_iff.mp (List.mem_cons_self b u)
          rcases List.mem_cons.mp hb1 with h2 | h2
          · exact h2.symm
          · have hrba : r b a := (List.sorted_cons.mp hs₂).1 a h
            have hrab : r a b := (List.sorted_cons.mp hs₁).1 b h2
            exact hanti a (List.mem_cons_self a t) b (List.mem_cons.mpr (Or.inr h2)) hrab hrba
      subst hab
      have ht : t.Perm u := hp.cons_inv
      have heq := ih u ht (List.sorted_cons.mp hs₁).2 (List.sorted_cons.mp hs₂).2
        (fun x hx y hy => hanti x (List.mem_cons.mpr (Or.inr hx)) y (List.mem_cons.mpr (Or.inr hy)))
      rw [heq]

/-- Stable sorting two permutation-equal target lists whose identities are
pairwise distinct gives the same output. -/
theorem insertionSort_eq_of_perm_nodup_store {l₁ l₂ : List Target}
    (hp : l₁.Perm l₂) (hnd : (l₁.map (fun t => t.1)).Nodup) :
    List.insertionSort target_le l₁ = List.insertionSort target_le l₂ := by
  apply sorted_perm_eq_on _ _
    (((List.perm_insertionSort _ l₁).trans hp).trans (List.perm_insertionSort _ l₂).symm)
    (List.sorted_insertionSort _ _) (List.sorted_insertionSort _ _)
  intro a ha b hb hab hba
  have ha2 : a ∈ l₁ := (List.mem_insertionSort _).mp ha
  have hb2 : b ∈ l₁ := (List.mem_insertionSort _).mp hb
  exact List.inj_on_of_nodup_map hnd ha2 hb2 (target_le_antisymm_store hab hba)

/-- The gateway-triple analogue of `insertionSort_eq_of_perm_nodup_store`. -/
theorem insertionSort_eq_of_perm_nodup_store3 {l₁ l₂ : List GwTriple}
    (hp : l₁.Perm l₂) (hnd : (l₁.map (fun t => t.1)).Nodup) :
    List.insertionSort triple_le l₁ = List.insertionSort triple_le l₂ := by
  apply sorted_perm_eq_on _ _
    (((List.perm_insertionSort _ l₁).trans hp).trans (List.perm_insertionSort _ l₂).symm)
    (List.sorted_insertionSort _ _) (List.sorted_insertionSort _ _)
  intro a ha b hb hab hba
  have ha2 : a ∈ l₁ := (List.mem_insertionSort _).mp ha
  have hb2 : b ∈ l₁ := (List.mem_insertionSort _).mp hb
  exact List.inj_on_of_nodup_map hnd ha2 hb2 (triple_le_antisymm_store hab hba)

/-! ## Lemmas about the probe executor -/

theorem parallel_ping_append_perm (completed : List (Target × SubprocResult)) :
    ((parallel_ping completed).1 ++ (parallel_ping completed).2).Perm
      (completed.map Prod.fst) := by
  unfold parallel_ping
  refine (List.Perm.append (List.perm_insertionSort _ _) (List.perm_insertionSort _ _)).trans ?_
  rw [← List.map_append]
  exact (List.filter_append_perm (fun p => task_ok p) completed).map Prod.fst

theorem mem_parallel_ping_succ {completed : List (Target × SubprocResult)} {t : Target} :
    t ∈ (parallel_ping completed).1 ↔ ∃ o, (t, o) ∈ completed ∧ task_ok (t, o) = true := by
  unfold parallel_ping
  simp only [List.mem_insertionSort, List.mem_map, List.mem_filter]
  constructor
  · rintro ⟨⟨t2, o⟩, ⟨hmem, hok⟩, rfl⟩
    exact ⟨o, hmem, hok⟩
  · rintro ⟨o, hmem, hok⟩
    exact ⟨(t, o), ⟨hmem, hok⟩, rfl⟩

theorem mem_parallel_ping_fail {completed : List (Target × SubprocResult)} {t : Target} :
    t ∈ (parallel_ping completed).2 ↔ ∃ o, (t, o) ∈ completed ∧ task_ok (t, o) = false := by
  unfold parallel_ping
  simp only [List.mem_insertionSort, List.mem_map, List.mem_filter, Bool.not_eq_true']
  constructor
  · rintro ⟨⟨t2, o⟩, ⟨hmem, hok⟩, rfl⟩
    exact ⟨o, hmem, hok⟩
  · rintro ⟨o, hmem, hok⟩
    exact ⟨(t, o), ⟨hmem, hok⟩, rfl⟩

theorem parallel_ping_eq_of_perm {c₁ c₂ : List (Target × SubprocResult)}
    (hp : c₁.Perm c₂) (hnd : (c₁.map (fun p => p.1.1)).Nodup) :
    parallel_ping c₁ = parallel_ping c₂ := by
  have hndf : ∀ q : Target × SubprocResult → Bool,
      (((c₁.filter q).map Prod.fst).map (fun t => t.1)).Nodup := by
    intro q
    rw [List.map_map]
    exact hnd.sublist ((List.filter_sublist c₁).map _)
  unfold parallel_ping
  refine Prod.ext ?_ ?_
  · exact insertionSort_eq_of_perm_nodup_store ((hp.filter _).map _) (hndf _)
  · exact insertionSort_eq_of_perm_nodup_store ((hp.filter _).map _) (hndf _)

/-! ## Lemmas about the gateway check -/

theorem gw_targets_of_eq (failures : List Target) (st2gw : String → String) :
    gw_targets_of failures st2gw =
      (failures.filter (fun t => gw_addr st2gw t != "")).map
        (fun t => (t.1, t.2, gw_addr st2gw t)) := by
  unfold gw_targets_of
  induction failures with
  | nil => rfl
  | cons t ts ih =>
    rw [List.filterMap_cons, List.filter_cons]
    by_cases h : gw_addr st2gw t ≠ ""
    · rw [if_pos h, if_pos (by simpa using h), List.map_cons, ih]
    · rw [if_neg h, if_neg (by simpa using h), ih]

theorem mem_check_gateways {gwSched : List GwTriple → List (GwTriple × SubprocResult)}
    {failures : List Target} {st2gw : String → String} {g : GwTriple}
    (hv : ((gwSched (gw_targets_of failures st2gw)).map Prod.fst).Perm
      (gw_targets_of failures st2gw)) :
    (g ∈ (check_gateways_for_failures gwSched failures st2gw).1 ∨
     g ∈ (check_gateways_for_failures gwSched failures st2gw).2) ↔
      g ∈ gw_targets_of failures st2gw := by
  unfold check_gateways_for_failures
  by_cases hts : (gw_targets_of failures st2gw).isEmpty = true
  · have hnil : gw_targets_of failures st2gw = [] := by
      cases h : gw_targets_of failures st2gw
      · rfl
      · rw [h] at hts; simp at hts
    simp [hts, hnil]
  · rw [if_neg hts]
    have hmf : ∀ p : GwTriple × SubprocResult → Bool,
        (g ∈ ((gwSched (gw_targets_of failures st2gw)).filter p).map (·.1) →
          g ∈ gw_targets_of failures st2gw) := by
      intro p hg
      rcases List.mem_map.mp hg with ⟨q, hq, rfl⟩
      exact hv.mem_iff.mp (List.mem_map.mpr ⟨q, (List.mem_filter.mp hq).1, rfl⟩)
    constructor
    · rintro (hg | hg)
      · exact hmf _ ((List.mem_insertionSort _).mp hg)
      · exact hmf _ ((List.mem_insertionSort _).mp hg)
    · intro hg
      rcases List.mem_map.mp (hv.mem_iff.mpr hg) with ⟨⟨g2, o⟩, hmem, rfl⟩
      by_cases hok : ping_host o g2.2.2 = true
      · exact Or.inl ((List.mem_insertionSort _).mpr
          (List.mem_map.mpr ⟨(g2, o), List.mem_filter.mpr ⟨hmem, hok⟩, rfl⟩))
      · exact Or.inr ((List.mem_insertionSort _).mpr
          (List.mem_map.mpr ⟨(g2, o), List.mem_filter.mpr ⟨hmem, by simp [hok]⟩, rfl⟩))

theorem check_gateways_eq_of_perm
    {gwSched₁ gwSched₂ : List GwTriple → List (GwTriple × SubprocResult)}
    (failures : List Target) (st2gw : String → String)
    (hp : (gwSched₁ (gw_targets_of failures st2gw)).Perm
      (gwSched₂ (gw_targets_of failures st2gw)))
    (hnd : ((gwSched₁ (gw_targets_of failures st2gw)).map (fun p => p.1.1)).Nodup) :
    check_gateways_for_failures gwSched₁ failures st2gw =
      check_gateways_for_failures gwSched₂ failures st2gw := by
  have hndf : ∀ q : GwTriple × SubprocResult → Bool,
      ((((gwSched₁ (gw_targets_of failures st2gw)).filter q).map Prod.fst).map
        (fun t => t.1)).Nodup := by
    intro q
    rw [List.map_map]
    exact hnd.sublist ((List.filter_sublist _).map _)
  unfold check_gateways_for_failures
  by_cases hts : (gw_targets_of failures st2gw).isEmpty = true
  · rw [if_pos hts, if_pos hts]
  · rw [if_neg hts, if_neg hts]
    refine Prod.ext ?_ ?_
    · exact insertionSort_eq_of_perm_nodup_store3 ((hp.filter _).map _) (hndf _)
    · exact insertionSort_eq_of_perm_nodup_store3 ((hp.filter _).map _) (hndf _)

/-! ## Lemmas about the pass controller -/

theorem run_passes_gateway_case (env : Env) (args : Args) (targets : List Target)
    (st2gw : String → String) (hgc : args.gatewayCheck = true)
    (hne : ¬ ((after_retry env args targets).2.isEmpty = true)) :
    run_passes env args targets st2gw =
      { initialSuccesses := (initial_pass env targets).1
        initialFailures := (initial_pass env targets).2
        recoveredCount := (after_retry env args targets).1
        preConfirmFailures := (after_retry env args targets).2
        confirmRecoveredCount :=
          (parallel_ping (env.sched Pass.confirm (after_retry env args targets).2)).1.length
        finalFailures :=
          (parallel_ping (env.sched Pass.confirm (after_retry env args targets).2)).2
        gwOnline :=
          (check_gateways_for_failures env.gwSched (after_retry env args targets).2 st2gw).1
        gwOffline :=
          (check_gateways_for_failures env.gwSched (after_retry env args targets).2 st2gw).2 } := by
  unfold run_passes
  rw [if_pos ⟨hgc, hne⟩]

theorem run_passes_plain_case (env : Env) (args : Args) (targets : List Target)
    (st2gw : String → String)
    (h : ¬ (args.gatewayCheck = true ∧ ¬ ((after_retry env args targets).2.isEmpty = true))) :
    run_passes env args targets st2gw =
      { initialSuccesses := (initial_pass env targets).1
        initialFailures := (initial_pass env targets).2
        recoveredCount := (after_retry env args targets).1
        preConfirmFailures := []
        confirmRecoveredCount := 0
        finalFailures := (after_retry env args targets).2
        gwOnline := []
        gwOffline := [] } := by
  unfold run_passes
  rw [if_neg h]

/-! ## Lemmas about failure details and map rows -/

theorem mem_build_failures_detail {ff initF : List Target} {st2gw : String → String}
    {dcMap : String → Option String} {rid rts : String} {r : FailRow}
    (hr : r ∈ build_failures_detail ff initF st2gw dcMap rid rts) :
    (r.store, r.server_ip) ∈ ff ∧ r.gateway_up = "" := by
  unfold build_failures_detail at hr
  rcases List.mem_map.mp hr with ⟨t, ht, rfl⟩
  exact ⟨ht, rfl⟩

theorem mem_apply_gateway_results {gc : Bool} {onl ofl : List GwTriple}
    {fds : List FailRow} {d : FailRow} (hd : d ∈ apply_gateway_results gc onl ofl fds) :
    ∃ r ∈ fds, d.store = r.store ∧ d.server_ip = r.server_ip := by
  unfold apply_gateway_results at hd
  split at hd
  · rcases List.mem_map.mp hd with ⟨r, hr, rfl⟩
    refine ⟨r, hr, ?_, ?_⟩ <;>
      cases hgl : gw_lookup onl ofl (r.store, r.server_ip) <;> simp [hgl]
  · exact ⟨d, hd, rfl, rfl⟩

theorem mem_fd_of {env : Env} {args : Args} {dcMap : String → Option String}
    {rows : List Rec} {d : FailRow} (hd : d ∈ fd_of env args dcMap rows) :
    (d.store, d.server_ip) ∈ (passes_of env args rows).finalFailures := by
  unfold fd_of at hd
  rcases mem_apply_gateway_results hd with ⟨r, hr, hs, hip⟩
  rcases mem_build_failures_detail hr with ⟨hmem, _⟩
  rw [hs, hip]
  exact hmem

theorem failure_lookup_some {fds : List FailRow} {s ip : String} {d : FailRow}
    (h : failure_lookup fds s ip = some d) :
    d ∈ fds ∧ d.store = s ∧ d.server_ip = ip := by
  unfold failure_lookup at h
  have hmem := List.mem_of_find?_eq_some h
  have hp := List.find?_some h
  simp only [Bool.and_eq_true, beq_iff_eq] at hp
  exact ⟨List.mem_reverse.mp hmem, hp.1, hp.2⟩

theorem failure_lookup_none_of_not_mem {env : Env} {args : Args}
    {dcMap : String → Option String} {rows : List Rec} {s ip : String}
    (h : (s, ip) ∉ (passes_of env args rows).finalFailures) :
    failure_lookup (fd_of env args dcMap rows) s ip = none := by
  cases hfl : failure_lookup (fd_of env args dcMap rows) s ip with
  | none => rfl
  | some d =>
    rcases failure_lookup_some hfl with ⟨hd, hs, hip⟩
    have := mem_fd_of hd
    rw [hs, hip] at this
    exact absurd this h

theorem build_map_row_store (fds : List FailRow) (dcMap : String → Option String)
    (rid rts : String) (rec : Rec) :
    (build_map_row fds dcMap rid rts rec).store = rec.store ∧
      (build_map_row fds dcMap rid rts rec).server_ip = rec.ip :=
  ⟨rfl, rfl⟩

theorem build_map_row_none {fds : List FailRow} {dcMap : String → Option String}
    {rid rts : String} {rec : Rec}
    (h : failure_lookup fds rec.store rec.ip = none) :
    (build_map_row fds dcMap rid rts rec).server_up = "true" ∧
    (build_map_row fds dcMap rid rts rec).gateway_up = "" ∧
    (build_map_row fds dcMap rid rts rec).status = "green" ∧
    (build_map_row fds dcMap rid rts rec).status_code = 0 := by
  unfold build_map_row
  simp [h, classify_status, encode_gateway]

theorem build_map_row_some {fds : List FailRow} {dcMap : String → Option String}
    {rid rts : String} {rec : Rec} {d : FailRow}
    (h : failure_lookup fds rec.store rec.ip = some d) :
    (build_map_row fds dcMap rid rts rec).server_up = "false" ∧
    (build_map_row fds dcMap rid rts rec).gateway_up =
      encode_gateway (decode_gateway d.gateway_up) := by
  unfold build_map_row
  simp [h]

theorem decode_encode (g : Option Bool) : decode_gateway (encode_gateway g) = g := by
  cases g with
  | none => decide
  | some b => cases b <;> decide

theorem build_map_row_status_eq (fds : List FailRow) (dcMap : String → Option String)
    (rid rts : String) (rec : Rec) :
    ((build_map_row fds dcMap rid rts rec).status,
      (build_map_row fds dcMap rid rts rec).status_code) =
    classify_status ((build_map_row fds dcMap rid rts rec).server_up == "true")
      (decode_gateway (build_map_row fds dcMap rid rts rec).gateway_up) := by
  unfold build_map_row
  cases h : failure_lookup fds rec.store rec.ip with
  | none => simp [h, classify_status, decode_encode]
  | some d =>
    simp only [h, Option.isNone_some]
    cases hg : decode_gateway d.gateway_up with
    | none => simp [classify_status, decode_encode, hg]
    | some b => cases b <;> simp [classify_status, decode_encode, hg]

/-! ## Lemmas about alerts -/

theorem mk_alert_type (t : String → String → Except String String)
    (webhook rid rts atype : String) (cnt : Nat) (msg : String) :
    (mk_alert t webhook rid rts atype cnt msg).alert_type = atype := by
  by_cases h : webhook ≠ "" <;> simp [mk_alert, h]

theorem build_alerts_types (t : String → String → Except String String)
    (webhook : String) (mi : Int) (rid rts : String)
    (no : List MapRow) (bo : List BackRow) :
    (build_alerts t webhook mi rid rts no bo).map (fun a => a.alert_type) =
      (if no.isEmpty then [] else ["offline"]) ++
        (if bo.isEmpty then [] else ["back_online"]) := by
  unfold build_alerts
  by_cases h1 : no.isEmpty <;> by_cases h2 : bo.isEmpty <;>
    simp [h1, h2, mk_alert_type]

theorem mk_alert_spec (t : String → String → Except String String)
    (webhook rid rts atype : String) (cnt : Nat) (msg : String) :
    ((mk_alert t webhook rid rts atype cnt msg).sent = true ↔ webhook ≠ "") ∧
    (webhook = "" → (mk_alert t webhook rid rts atype cnt msg).delivery_ok = none ∧
      (mk_alert t webhook rid rts atype cnt msg).delivery_detail = "") ∧
    (webhook ≠ "" → (mk_alert t webhook rid rts atype cnt msg).delivery_ok =
        some (send_teams_webhook t webhook msg).1 ∧
      (mk_alert t webhook rid rts atype cnt msg).delivery_detail =
        (send_teams_webhook t webhook msg).2) ∧
    (mk_alert t webhook rid rts atype cnt msg).run_id = rid ∧
    (mk_alert t webhook rid rts atype cnt msg).timestamp = rts ∧
    (mk_alert t webhook rid rts atype cnt msg).message = msg ∧
    (mk_alert t webhook rid rts atype cnt msg).item_count = cnt := by
  by_cases h : webhook ≠ "" <;> simp [mk_alert, h]

theorem mem_build_alerts {t : String → String → Except String String}
    {webhook : String} {mi : Int} {rid rts : String}
    {no : List MapRow} {bo : List BackRow} {a : AlertRow}
    (ha : a ∈ build_alerts t webhook mi rid rts no bo) :
    (a.sent = true ↔ webhook ≠ "") ∧
    (webhook = "" → a.delivery_ok = none ∧ a.delivery_detail = "") ∧
    (webhook ≠ "" → a.delivery_ok = some (send_teams_webhook t webhook a.message).1 ∧
      a.delivery_detail = (send_teams_webhook t webhook a.message).2) ∧
    a.run_id = rid ∧ a.timestamp = rts := by
  unfold build_alerts at ha
  have hmk : ∀ atype cnt msg, a = mk_alert t webhook rid rts atype cnt msg →
      (a.sent = true ↔ webhook ≠ "") ∧
      (webhook = "" → a.delivery_ok = none ∧ a.delivery_detail = "") ∧
      (webhook ≠ "" → a.delivery_ok = some (send_teams_webhook t webhook a.message).1 ∧
        a.delivery_detail = (send_teams_webhook t webhook a.message).2) ∧
      a.run_id = rid ∧ a.timestamp = rts := by
    rintro atype cnt msg rfl
    obtain ⟨s1, s2, s3, s4, s5, s6, s7⟩ := mk_alert_spec t webhook rid rts atype cnt msg
    exact ⟨s1, s2, by rw [s6]; exact s3, s4, s5⟩
  simp only at ha
  rcases List.mem_append.mp ha with h | h
  · by_cases h1 : no.isEmpty <;> simp [h1] at h
    exact hmk _ _ _ h
  · by_cases h1 : bo.isEmpty <;> simp [h1] at h
    exact hmk _ _ _ h

theorem mk_alert_strip (t₁ t₂ : String → String → Except String String)
    (webhook rid rts atype : String) (cnt : Nat) (msg : String) :
    stripDelivery (mk_alert t₁ webhook rid rts atype cnt msg) =
      stripDelivery (mk_alert t₂ webhook rid rts atype cnt msg) := by
  by_cases h : webhook ≠ "" <;> simp [mk_alert, stripDelivery, h]

theorem build_alerts_strip (t₁ t₂ : String → String → Except String String)
    (webhook : String) (mi : Int) (rid rts : String)
    (no : List MapRow) (bo : List BackRow) :
    (build_alerts t₁ webhook mi rid rts no bo).map stripDelivery =
      (build_alerts t₂ webhook mi rid rts no bo).map stripDelivery := by
  unfold build_alerts
  by_cases h1 : no.isEmpty <;> by_cases h2 : bo.isEmpty <;>
    simp [h1, h2, mk_alert_strip t₁ t₂]

/-! ## Determinism of a run with respect to completion order -/

/-- The guarantee the thread-pool executor provides: the completed futures of
a pass cover exactly the submitted targets. -/
def Env.validSched (env : Env) : Prop :=
  (∀ p ts, ((env.sched p ts).map Prod.fst).Perm ts) ∧
  (∀ ts, ((env.gwSched ts).map Prod.fst).Perm ts)

theorem completed_fst_nodup {α β γ : Type _} {c : List (α × β)} {ts : List α}
    (f : α → γ) (hp : (c.map Prod.fst).Perm ts) (hnd : (ts.map f).Nodup) :
    (c.map (fun p => f p.1)).Nodup := by
  have hperm : (c.map (fun p => f p.1)).Perm (ts.map f) := by
    have h2 := hp.map f
    simpa [List.map_map, Function.comp] using h2
  exact hperm.symm.nodup hnd

theorem parallel_ping_fail_store_nodup {c : List (Target × SubprocResult)}
    (hnd : (c.map (fun p => p.1.1)).Nodup) :
    ((parallel_ping c).2.map (fun t => t.1)).Nodup := by
  unfold parallel_ping
  have hperm : ((List.insertionSort target_le
      ((c.filter (fun p => !task_ok p)).map Prod.fst)).map (fun t => t.1)).Perm
        (((c.filter (fun p => !task_ok p)).map Prod.fst).map (fun t => t.1)) :=
    (List.perm_insertionSort _ _).map _
  refine hperm.symm.nodup ?_
  rw [List.map_map]
  exact hnd.sublist ((List.filter_sublist _).map _)

theorem gw_targets_store_nodup {failures : List Target} {st2gw : String → String}
    (hnd : (failures.map (fun t => t.1)).Nodup) :
    ((gw_targets_of failures st2gw).map (fun t => t.1)).Nodup := by
  rw [gw_targets_of_eq, List.map_map]
  exact hnd.sublist ((List.filter_sublist _).map _)

theorem after_retry_store_nodup {env : Env} {args : Args} {targets : List Target}
    (hv : Env.validSched env) (hnd : (targets.map (fun t => t.1)).Nodup) :
    ((after_retry env args targets).2.map (fun t => t.1)).Nodup := by
  have hinit : ((initial_pass env targets).2.map (fun t => t.1)).Nodup :=
    parallel_ping_fail_store_nodup (completed_fst_nodup _ (hv.1 Pass.initial targets) hnd)
  unfold after_retry
  by_cases h : ¬ (initial_pass env targets).2.isEmpty = true ∧ args.retryPings > 0
  · rw [if_pos h]
    exact parallel_ping_fail_store_nodup
      (completed_fst_nodup _ (hv.1 Pass.retry (initial_pass env targets).2) hinit)
  · rw [if_neg h]
    exact hinit

theorem after_retry_sched_eq {env₁ env₂ : Env} {args : Args} {targets : List Target}
    (hsched : ∀ p ts, (env₁.sched p ts).Perm (env₂.sched p ts))
    (hnd : (targets.map (fun t => t.1)).Nodup)
    (hv : Env.validSched env₁) :
    after_retry env₁ args targets = after_retry env₂ args targets := by
  have hinit : initial_pass env₁ targets = initial_pass env₂ targets :=
    parallel_ping_eq_of_perm (hsched Pass.initial targets)
      (completed_fst_nodup _ (hv.1 Pass.initial targets) hnd)
  have hinitnd : ((initial_pass env₁ targets).2.map (fun t => t.1)).Nodup :=
    parallel_ping_fail_store_nodup (completed_fst_nodup _ (hv.1 Pass.initial targets) hnd)
  unfold after_retry
  rw [← hinit]
  by_cases h : ¬ (initial_pass env₁ targets).2.isEmpty = true ∧ args.retryPings > 0
  · rw [if_pos h, if_pos h]
    rw [parallel_ping_eq_of_perm (hsched Pass.retry (initial_pass env₁ targets).2)
      (completed_fst_nodup _ (hv.1 Pass.retry (initial_pass env₁ targets).2) hinitnd)]
  · rw [if_neg h, if_neg h]

theorem run_passes_sched_eq {env₁ env₂ : Env} {args : Args} {targets : List Target}
    {st2gw : String → String}
    (hsched : ∀ p ts, (env₁.sched p ts).Perm (env₂.sched p ts))
    (hgw : ∀ ts, (env₁.gwSched ts).Perm (env₂.gwSched ts))
    (hnd : (targets.map (fun t => t.1)).Nodup)
    (hv : Env.validSched env₁) :
    run_passes env₁ args targets st2gw = run_passes env₂ args targets st2gw := by
  have hinit : initial_pass env₁ targets = initial_pass env₂ targets :=
    parallel_ping_eq_of_perm (hsched Pass.initial targets)
      (completed_fst_nodup _ (hv.1 Pass.initial targets) hnd)
  have hret : after_retry env₁ args targets = after_retry env₂ args targets :=
    after_retry_sched_eq hsched hnd hv
  have hretnd : ((after_retry env₁ args targets).2.map (fun t => t.1)).Nodup :=
    after_retry_store_nodup hv hnd
  unfold run_passes
  rw [← hinit, ← hret]
  by_cases h : args.gatewayCheck = true ∧
      ¬ ((after_retry env₁ args targets).2.isEmpty = true)
  · rw [if_pos h, if_pos h]
    dsimp only
    rw [parallel_ping_eq_of_perm (hsched Pass.confirm (after_retry env₁ args targets).2)
      (completed_fst_nodup _ (hv.1 Pass.confirm (after_retry env₁ args targets).2) hretnd)]
    rw [check_gateways_eq_of_perm (after_retry env₁ args targets).2 st2gw
      (hgw (gw_targets_of (after_retry env₁ args targets).2 st2gw))
      (completed_fst_nodup _ (hv.2 (gw_targets_of (after_retry env₁ args targets).2 st2gw))
        (gw_targets_store_nodup hretnd))]
  · rw [if_neg h, if_neg h]

theorem run_core_sched_eq {env₁ env₂ : Env} (args : Args)
    (dcMap : String → Option String) (rows : List Rec)
    (hv : Env.validSched env₁)
    (hsched : ∀ p ts, (env₁.sched p ts).Perm (env₂.sched p ts))
    (hgw : ∀ ts, (env₁.gwSched ts).Perm (env₂.gwSched ts))
    (hprev : env₁.prevData = env₂.prevData)
    (htrans : env₁.transport = env₂.transport)
    (hstamp : env₁.runStamp = env₂.runStamp)
    (hts : env₁.runTs = env₂.runTs)
    (hnd : ((targets_of rows).map (fun t => t.1)).Nodup) :
    run_core env₁ args dcMap rows = run_core env₂ args dcMap rows := by
  have hpass : passes_of env₁ args rows = passes_of env₂ args rows := by
    unfold passes_of
    exact run_passes_sched_eq hsched hgw hnd hv
  have hrid : runId_of env₁ args = runId_of env₂ args := by
    unfold runId_of
    rw [hstamp]
  have hfd : fd_of env₁ args dcMap rows = fd_of env₂ args dcMap rows := by
    unfold fd_of
    rw [hpass, hrid, hts]
  have hmr : mapRows_of env₁ args dcMap rows = mapRows_of env₂ args dcMap rows := by
    unfold mapRows_of
    rw [hfd, hrid, hts]
  have htr : trans_of env₁ args dcMap rows = trans_of env₂ args dcMap rows := by
    unfold trans_of
    rw [hmr, hprev]
  have hal : alerts_of env₁ args dcMap rows = alerts_of env₂ args dcMap rows := by
    unfold alerts_of
    rw [htr, hrid, hts, htrans]
  have hsum : summary_of env₁ args dcMap rows = summary_of env₂ args dcMap rows := by
    unfold summary_of
    rw [hpass, hrid, hts, htr]
  unfold run_core
  rw [hpass, hfd, hmr, htr, hal, hsum]

/-! ## Lemmas about the historical store -/

theorem apply_writes_snoc (ws : List WriteOp) (w : WriteOp) :
    apply_writes (ws ++ [w]) =
      write_run_to_sqlite (apply_writes ws) w.summary w.mapRows w.alertRows := by
  unfold apply_writes
  rw [List.foldl_append]
  rfl

theorem last_write_for_snoc (ws : List WriteOp) (w : WriteOp) (rid : String) :
    last_write_for (ws ++ [w]) rid =
      if w.summary.run_id == rid then some w else last_write_for ws rid := by
  unfold last_write_for
  rw [List.reverse_append]
  cases h : (w.summary.run_id == rid) <;> simp [List.find?_cons, h]

theorem apply_writes_runs_unique (ws : List WriteOp) (rid : String) :
    ((apply_writes ws).runs.filter (fun r => r.1 == rid)).length ≤ 1 := by
  induction ws using List.reverseRecOn with
  | nil => simp [apply_writes, emptyDb]
  | append_singleton ws w ih =>
    rw [apply_writes_snoc]
    unfold write_run_to_sqlite
    dsimp only
    rw [List.filter_append, List.length_append]
    by_cases h : w.summary.run_id = rid
    · have h1 : ((apply_writes ws).runs.filter
          (fun r => r.1 ≠ w.summary.run_id)).filter (fun r => r.1 == rid) = [] := by
        rw [List.filter_eq_nil_iff]
        intro a ha
        have hne := (List.mem_filter.mp ha).2
        simp only [ne_eq, decide_not, Bool.not_eq_true', decide_eq_false_iff_not] at hne
        simp only [beq_iff_eq]
        exact fun hc => hne (hc.trans h.symm)
      rw [h1]
      simp [h]
    · have h2 : (([(w.summary.run_id, w.summary)] : List (String × Summary)).filter
          (fun r => r.1 == rid)) = [] := by
        simp [h]
      rw [h2]
      have h3 : ((apply_writes ws).runs.filter
          (fun r => r.1 ≠ w.summary.run_id)).filter (fun r => r.1 == rid) =
          (apply_writes ws).runs.filter (fun r => r.1 == rid) := by
        rw [List.filter_filter]
        apply List.filter_congr
        intro r _
        cases hr : (r.1 == rid)
        · simp
        · have hrid : r.1 = rid := by simpa using hr
          rw [Bool.true_and, decide_eq_true_eq, hrid]
          exact fun hh => h hh.symm
      rw [h3]
      simpa using ih

theorem apply_writes_events (ws : List WriteOp) (rid : String)
    (h : ∀ w ∈ ws, ∀ r ∈ w.mapRows, r.run_id = w.summary.run_id) :
    (apply_writes ws).events.filter (fun e => e.run_id == rid) =
      (match last_write_for ws rid with
        | some w => w.mapRows.map dbEventOfRow
        | none => []) := by
  induction ws using List.reverseRecOn with
  | nil => simp [apply_writes, emptyDb, last_write_for]
  | append_singleton ws w ih =>
    have hws : ∀ w2 ∈ ws, ∀ r ∈ w2.mapRows, r.run_id = w2.summary.run_id :=
      fun w2 hw2 => h w2 (List.mem_append.mpr (Or.inl hw2))
    have hw : ∀ r ∈ w.mapRows, r.run_id = w.summary.run_id :=
      h w (List.mem_append.mpr (Or.inr (List.mem_singleton.mpr rfl)))
    rw [apply_writes_snoc, last_write_for_snoc]
    unfold write_run_to_sqlite
    dsimp only
    rw [List.filter_append]
    by_cases hr : w.summary.run_id = rid
    · have h1 : ((apply_writes ws).events.filter
          (fun e => e.run_id ≠ w.summary.run_id)).filter (fun e => e.run_id == rid) = [] := by
        rw [List.filter_eq_nil_iff]
        intro a ha
        have hne := (List.mem_filter.mp ha).2
        simp only [ne_eq, decide_not, Bool.not_eq_true', decide_eq_false_iff_not] at hne
        simp only [beq_iff_eq]
        exact fun hc => hne (hc.trans hr.symm)
      have h2 : (w.mapRows.map dbEventOfRow).filter (fun e => e.run_id == rid) =
          w.mapRows.map dbEventOfRow := by
        rw [List.filter_eq_self]
        intro a ha
        rcases List.mem_map.mp ha with ⟨r, hrm, rfl⟩
        have : r.run_id = w.summary.run_id := hw r hrm
        simp [dbEventOfRow, this, hr]
      rw [h1, h2, if_pos (by simpa using hr)]
      rfl
    · have h2 : (w.mapRows.map dbEventOfRow).filter (fun e => e.run_id == rid) = [] := by
        rw [List.filter_eq_nil_iff]
        intro a ha
        rcases List.mem_map.mp ha with ⟨r, hrm, rfl⟩
        have : r.run_id = w.summary.run_id := hw r hrm
        simp [dbEventOfRow, this, hr]
      have h3 : ((apply_writes ws).events.filter
          (fun e => e.run_id ≠ w.summary.run_id)).filter (fun e => e.run_id == rid) =
          (apply_writes ws).events.filter (fun e => e.run_id == rid) := by
        rw [List.filter_filter]
        apply List.filter_congr
        intro e _
        cases he : (e.run_id == rid)
        · simp
        · have hrid : e.run_id = rid := by simpa using he
          rw [Bool.true_and, decide_eq_true_eq, hrid]
          exact fun hh => hr hh.symm
      rw [h2, h3, if_neg (by simpa using hr)]
      simpa using ih hws

theorem apply_writes_alerts (ws : List WriteOp) (rid : String)
    (h : ∀ w ∈ ws, ∀ a ∈ w.alertRows, a.run_id = w.summary.run_id) :
    (apply_writes ws).alerts.filter (fun a => a.run_id == rid) =
      (match last_write_for ws rid with
        | some w => w.alertRows.map dbAlertOfRow
        | none => []) := by
  induction ws using List.reverseRecOn with
  | nil => simp [apply_writes, emptyDb, last_write_for]
  | append_singleton ws w ih =>
    have hws : ∀ w2 ∈ ws, ∀ a ∈ w2.alertRows, a.run_id = w2.summary.run_id :=
      fun w2 hw2 => h w2 (List.mem_append.mpr (Or.inl hw2))
    have hw : ∀ a ∈ w.alertRows, a.run_id = w.summary.run_id :=
      h w (List.mem_append.mpr (Or.inr (List.mem_singleton.mpr rfl)))
    rw [apply_writes_snoc, last_write_for_snoc]
    unfold write_run_to_sqlite
    dsimp only
    rw [List.filter_append]
    by_cases hr : w.summary.run_id = rid
    · have h1 : ((apply_writes ws).alerts.filter
          (fun a => a.run_id ≠ w.summary.run_id)).filter (fun a => a.run_id == rid) = [] := by
        rw [List.filter_eq_nil_iff]
        intro a ha
        have hne := (List.mem_filter.mp ha).2
        simp only [ne_eq, decide_not, Bool.not_eq_true', decide_eq_false_iff_not] at hne
        simp only [beq_iff_eq]
        exact fun hc => hne (hc.trans hr.symm)
      have h2 : (w.alertRows.map dbAlertOfRow).filter (fun a => a.run_id == rid) =
          w.alertRows.map dbAlertOfRow := by
        rw [List.filter_eq_self]
        intro a ha
        rcases List.mem_map.mp ha with ⟨r, hrm, rfl⟩
        have : r.run_id = w.summary.run_id := hw r hrm
        simp [dbAlertOfRow, this, hr]
      rw [h1, h2, if_pos (by simpa using hr)]
      rfl
    · have h2 : (w.alertRows.map dbAlertOfRow).filter (fun a => a.run_id == rid) = [] := by
        rw [List.filter_eq_nil_iff]
        intro a ha
        rcases List.mem_map.mp ha with ⟨r, hrm, rfl⟩
        have : r.run_id = w.summary.run_id := hw r hrm
        simp [dbAlertOfRow, this, hr]
      have h3 : ((apply_writes ws).alerts.filter
          (fun a => a.run_id ≠ w.summary.run_id)).filter (fun a => a.run_id == rid) =
          (apply_writes ws).alerts.filter (fun a => a.run_id == rid) := by
        rw [List.filter_filter]
        apply List.filter_congr
        intro a _
        cases he : (a.run_id == rid)
        · simp
        · have hrid : a.run_id = rid := by simpa using he
          rw [Bool.true_and, decide_eq_true_eq, hrid]
          exact fun hh => hr hh.symm
      rw [h2, h3, if_neg (by simpa using hr)]
      simpa using ih hws

end Sauron

namespace Sauron

/-! ## Small bridging lemmas -/

theorem ping_host_error (e : String) (ip : String) :
    ping_host (Except.error e) ip = false := by
  unfold ping_host
  split <;> rfl

theorem mem_gw_targets_of {failures : List Target} {st2gw : String → String}
    {g : GwTriple} :
    g ∈ gw_targets_of failures st2gw ↔
      ∃ t, t ∈ failures ∧ gw_addr st2gw t ≠ "" ∧
        g = (t.1, t.2, gw_addr st2gw t) := by
  unfold gw_targets_of
  rw [List.mem_filterMap]
  constructor
  · rintro ⟨t, ht, hg⟩
    by_cases h : gw_addr st2gw t ≠ ""
    · rw [if_pos h] at hg
      exact ⟨t, ht, h, (Option.some.inj hg).symm⟩
    · rw [if_neg h] at hg
      cases hg
  · rintro ⟨t, ht, h, rfl⟩
    exact ⟨t, ht, by rw [if_pos h]⟩

theorem map_fst_pair_perm {α β : Type _} (f : α → β) (ts : List α) :
    ((ts.map fun t => (t, f t)).map Prod.fst).Perm ts := by
  rw [List.map_map]
  rw [show (Prod.fst ∘ fun t => (t, f t)) = id from rfl]
  rw [List.map_id]

theorem mkEnv_validSched (outcome : Pass → Target → Bool) (gw : GwTriple → Bool)
    (prevData : Option (List PrevRow))
    (transport : String → String → Except String String) :
    Env.validSched (mkEnv outcome gw prevData transport) := by
  constructor
  · intro p ts
    exact map_fst_pair_perm _ ts
  · intro ts
    exact map_fst_pair_perm _ ts

theorem mkEnvRev_sched_perm (outcome : Pass → Target → Bool) (gw : GwTriple → Bool)
    (prevData : Option (List PrevRow))
    (transport : String → String → Except String String) :
    (∀ p ts, ((mkEnv outcome gw prevData transport).sched p ts).Perm
      ((mkEnvRev outcome gw prevData transport).sched p ts)) ∧
    (∀ ts, ((mkEnv outcome gw prevData transport).gwSched ts).Perm
      ((mkEnvRev outcome gw prevData transport).gwSched ts)) := by
  constructor
  · intro p ts
    exact (List.reverse_perm _).symm
  · intro ts
    exact (List.reverse_perm _).symm

theorem runOnce_ok_elim {env : Env} {args : Args} {dcMap : String → Option String}
    {rows : List Rec} {res : RunResult}
    (hok : runOnce env args dcMap rows = Except.ok res) :
    res = run_core env args dcMap rows ∧ rows.length ≠ 0 := by
  unfold runOnce at hok
  by_cases h : rows.length = 0
  · rw [if_pos h] at hok
    cases hok
  · rw [if_neg h] at hok
    exact ⟨(Except.ok.inj hok).symm, h⟩

/-! ## Claim C1: the status classifier -/

/-- C1: Status derivation is a total function of (server reachable, tri-valued
gateway reachability).  Server reachable yields green with status code 0 (for
every gateway value); server unreachable with gateway known-up yields yellow
with code 1; server unreachable with gateway known-down, or unknown, yields
red with code 2 — exactly one of the three statuses for every input, with
unknown classified identically to gateway-down while its persisted encoding
("" versus "false") stays distinguishable; and every persisted snapshot row's
(status, status_code) pair is exactly the classifier applied to the row's own
persisted server/gateway fields. -/
theorem claim1_status_derivation :
    (∀ g, classify_status true g = ("green", 0)) ∧
    classify_status false (some true) = ("yellow", 1) ∧
    classify_status false (some false) = ("red", 2) ∧
    classify_status false none = ("red", 2) ∧
    (∀ s g, classify_status s g = ("green", 0) ∨ classify_status s g = ("yellow", 1) ∨
      classify_status s g = ("red", 2)) ∧
    encode_gateway none ≠ encode_gateway (some false) ∧
    (∀ env args dcMap rows res, runOnce env args dcMap rows = Except.ok res →
      ∀ row ∈ res.mapRows,
        (row.status, row.status_code) =
          classify_status (row.server_up == "true") (decode_gateway row.gateway_up)) := by
  refine ⟨fun g => rfl, by decide, by decide, by decide, ?_, by decide, ?_⟩
  · intro s g
    cases s
    · cases g with
      | none => exact Or.inr (Or.inr (by decide))
      | some b =>
        cases b
        · exact Or.inr (Or.inr (by decide))
        · exact Or.inr (Or.inl (by decide))
    · exact Or.inl rfl
  · intro env args dcMap rows res hok row hrow
    obtain ⟨hres, -⟩ := runOnce_ok_elim hok
    subst hres
    have hmem : row ∈ mapRows_of env args dcMap rows := hrow
    unfold mapRows_of at hmem
    rcases List.mem_map.mp hmem with ⟨rec, -, rfl⟩
    exact build_map_row_status_eq _ _ _ _ _

/-- Witness for C1: the classifier equation instantiated on the row that a
concrete all-down run persists. -/
theorem claim1_status_derivation_witness :
    (((run_core envAllDown baseArgs (fun _ => none) [rec1001]).mapRows.headD dummyRow).status,
      ((run_core envAllDown baseArgs (fun _ => none) [rec1001]).mapRows.headD dummyRow).status_code) =
    classify_status
      (((run_core envAllDown baseArgs (fun _ => none) [rec1001]).mapRows.headD dummyRow).server_up == "true")
      (decode_gateway
        ((run_core envAllDown baseArgs (fun _ => none) [rec1001]).mapRows.headD dummyRow).gateway_up) :=
  claim1_status_derivation.2.2.2.2.2.2 envAllDown baseArgs (fun _ => none) [rec1001]
    (run_core envAllDown baseArgs (fun _ => none) [rec1001]) (by decide)
    ((run_core envAllDown baseArgs (fun _ => none) [rec1001]).mapRows.headD dummyRow)
    (by decide)

/-! ## Claim C2: the probe executor -/

/-- C2 counterexample: the two returned lists are not disjoint in general.
When the same (identity, address) pair is submitted twice and the host
answers one probe but not the other — an execution the code admits, since
every future is an independent subprocess — the target appears in the
successes and in the failures.  (The completed batch covers the submitted
targets, so this is a valid executor run.) -/
theorem claim2_counterexample :
    ((dupCompleted.map Prod.fst).Perm [("1", "10.0.0.5"), ("1", "10.0.0.5")]) ∧
    ("1", "10.0.0.5") ∈ (parallel_ping dupCompleted).1 ∧
    ("1", "10.0.0.5") ∈ (parallel_ping dupCompleted).2 := by
  refine ⟨by decide, by decide, by decide⟩

/-- C2 amended: for every target list and any completion of it, the two lists
partition the submitted targets (each occurrence lands in exactly one list),
so their lengths sum to the number of targets with no duplicated or missing
identity; an empty-address target is always a failure with no probe run (the
ping wrapper returns false without consulting the subprocess); an exception
from the probe machinery makes that target a failure and never aborts the
batch; and the two lists are disjoint whenever the submitted identities are
pairwise distinct (the claim's "disjoint" fails only for duplicated
targets, see the counterexample). -/
theorem claim2_executor_partition (targets : List Target)
    (completed : List (Target × SubprocResult))
    (hperm : (completed.map Prod.fst).Perm targets) :
    ((parallel_ping completed).1 ++ (parallel_ping completed).2).Perm targets ∧
    (parallel_ping completed).1.length + (parallel_ping completed).2.length =
      targets.length ∧
    (∀ o, ping_host o "" = false) ∧
    (∀ t ∈ targets, t.2 = "" → t ∈ (parallel_ping completed).2) ∧
    (∀ p ∈ completed, ∀ e, p.2 = Except.error e → p.1 ∈ (parallel_ping completed).2) ∧
    ((targets.map (fun t => t.1)).Nodup →
      ∀ t, ¬ (t ∈ (parallel_ping completed).1 ∧ t ∈ (parallel_ping completed).2)) := by
  have hap := (parallel_ping_append_perm completed).trans hperm
  refine ⟨hap, ?_, ?_, ?_, ?_, ?_⟩
  · have := hap.length_eq
    rwa [List.length_append] at this
  · intro o
    rfl
  · intro t ht ht2
    have : t ∈ completed.map Prod.fst := hperm.symm.mem_iff.mp ht
    rcases List.mem_map.mp this with ⟨⟨t2, o⟩, hmem, rfl⟩
    refine mem_parallel_ping_fail.mpr ⟨o, hmem, ?_⟩
    show ping_host o t2.2 = false
    rw [ht2]
    rfl
  · rintro ⟨t, o⟩ hmem e rfl
    refine mem_parallel_ping_fail.mpr ⟨Except.error e, hmem, ?_⟩
    exact ping_host_error e t.2
  · rintro hnd t ⟨h1, h2⟩
    rcases mem_parallel_ping_succ.mp h1 with ⟨o1, hm1, hok1⟩
    rcases mem_parallel_ping_fail.mp h2 with ⟨o2, hm2, hok2⟩
    have hcnd : (completed.map (fun p => p.1.1)).Nodup :=
      completed_fst_nodup _ hperm hnd
    have heq : ((t, o1) : Target × SubprocResult) = (t, o2) :=
      List.inj_on_of_nodup_map hcnd hm1 hm2 rfl
    cases heq
    rw [hok1] at hok2
    cases hok2

/-- Witness for C2: the partition properties on a concrete completed batch
holding an empty-address target and a raising probe. -/
theorem claim2_executor_partition_witness :
    ((parallel_ping mixedCompleted).1 ++ (parallel_ping mixedCompleted).2).Perm
      [("1", "a"), ("2", "")] ∧
    ("2", "") ∈ (parallel_ping mixedCompleted).2 ∧
    ("1", "a") ∈ (parallel_ping mixedCompleted).2 :=
  ⟨(claim2_executor_partition [("1", "a"), ("2", "")] mixedCompleted (by decide)).1,
   (claim2_executor_partition [("1", "a"), ("2", "")] mixedCompleted (by decide)).2.2.2.1
     ("2", "") (by decide) rfl,
   (claim2_executor_partition [("1", "a"), ("2", "")] mixedCompleted (by decide)).2.2.2.2.1
     ((("1", "a")), Except.error "boom") (by decide) "boom" rfl⟩

/-! ## Claim C3: empty inventory -/

/-- C3 counterexample: on zero usable inventory rows the pipeline does abort
before probing and writes nothing, but it terminates through `sys.exit(0)`
(sauron.py:752) — the exit signal is 0, not non-zero as the claim states. -/
theorem claim3_counterexample :
    runOnce envAllDown baseArgs (fun _ => none) [] = Except.error 0 := by decide

/-- C3 amended: if the inventory yields zero usable rows the pipeline aborts
before any probing and produces no output artifact (the abort result carries
no run artifacts, and is the same for every environment, so no probe outcome
was consulted) — but it terminates with exit code 0, not a non-zero code. -/
theorem claim3_empty_inventory_abort (env : Env) (args : Args)
    (dcMap : String → Option String) (rows : List Rec) (h : rows = []) :
    runOnce env args dcMap rows = Except.error 0 := by
  subst h
  rfl

/-- Witness for C3. -/
theorem claim3_empty_inventory_abort_witness :
    runOnce envRecover baseArgs (fun _ => none) [] = Except.error 0 :=
  claim3_empty_inventory_abort envRecover baseArgs (fun _ => none) [] rfl

end Sauron

namespace Sauron

/-! ## Claim C4: final-confirm recovery -/

/-- C4 counterexample: the final-confirm pass is tied to `--gateway-check`
(sauron.py:809).  With gateway checking disabled, store 1001 fails initial and
retry, the environment would answer its final-confirm probe, yet no confirm
pass runs (`preConfirmFailures` stays empty), and 1001 is persisted as down,
appears in the failures detail and is counted in `final_timeouts` — refuting
"every endpoint still failing after the retry pass undergoes a final-confirm
pass". -/
theorem claim4_counterexample :
    ("1001", "10.0.0.5") ∈
      (run_core envRecover argsNoGw (fun _ => none) [rec1001, rec2002]).initialFailures ∧
    envRecover.sched Pass.confirm [("1001", "10.0.0.5")] =
      [((("1001", "10.0.0.5")), Except.ok 0)] ∧
    (run_core envRecover argsNoGw (fun _ => none) [rec1001, rec2002]).preConfirmFailures = [] ∧
    (run_core envRecover argsNoGw (fun _ => none) [rec1001, rec2002]).finalFailures =
      [("1001", "10.0.0.5")] ∧
    (run_core envRecover argsNoGw (fun _ => none) [rec1001, rec2002]).mapRows.map
      (fun r => (r.store, r.server_up, r.status)) =
      [("1001", "false", "red"), ("2002", "true", "green")] ∧
    (run_core envRecover argsNoGw (fun _ => none) [rec1001, rec2002]).failuresDetail.map
      (fun d => d.store) = ["1001"] ∧
    (run_core envRecover argsNoGw (fun _ => none) [rec1001, rec2002]).summary.final_timeouts = 1 := by
  refine ⟨by decide, by decide, by decide, by decide, by decide, by decide, by decide⟩

/-- C4 amended: when gateway checking is enabled, every endpoint still failing
after the retry pass undergoes the final-confirm pass (the pre-confirm set is
exactly the post-retry failure set and the final failures are exactly the
confirm pass's failures), and an endpoint whose final-confirm probe succeeds
is classified UP in the snapshot and appears in no failure-oriented output:
it is not a final failure, hence not counted by `final_timeouts` (which counts
exactly the final failures), it is absent from the failures detail, and its
snapshot row is green. -/
theorem claim4_final_confirm_recovery (env : Env) (args : Args)
    (dcMap : String → Option String) (rows : List Rec) (res : RunResult) (t : Target)
    (hok : runOnce env args dcMap rows = Except.ok res)
    (hgc : args.gatewayCheck = true)
    (hfail : t ∈ res.preConfirmFailures)
    (hconf : ∀ o, (t, o) ∈ env.sched Pass.confirm res.preConfirmFailures →
      task_ok (t, o) = true) :
    res.preConfirmFailures = (after_retry env args (targets_of rows)).2 ∧
    res.finalFailures = (parallel_ping (env.sched Pass.confirm res.preConfirmFailures)).2 ∧
    t ∉ res.finalFailures ∧
    res.summary.final_timeouts = res.finalFailures.length ∧
    (∀ d ∈ res.failuresDetail, (d.store, d.server_ip) ≠ t) ∧
    (∀ row ∈ res.mapRows, (row.store, row.server_ip) = t →
      row.server_up = "true" ∧ row.status = "green" ∧ row.status_code = 0) := by
  obtain ⟨hres, hlen⟩ := runOnce_ok_elim hok
  subst hres
  by_cases hne : (after_retry env args (targets_of rows)).2.isEmpty = true
  · exfalso
    have hpre : (run_core env args dcMap rows).preConfirmFailures = [] := by
      show (passes_of env args rows).preConfirmFailures = []
      unfold passes_of
      rw [run_passes_plain_case env args (targets_of rows) (store_to_gateway rows)
        (by intro hc; exact hc.2 hne)]
    rw [hpre] at hfail
    cases hfail
  · have hpass : passes_of env args rows =
        { initialSuccesses := (initial_pass env (targets_of rows)).1
          initialFailures := (initial_pass env (targets_of rows)).2
          recoveredCount := (after_retry env args (targets_of rows)).1
          preConfirmFailures := (after_retry env args (targets_of rows)).2
          confirmRecoveredCount :=
            (parallel_ping (env.sched Pass.confirm (after_retry env args (targets_of rows)).2)).1.length
          finalFailures :=
            (parallel_ping (env.sched Pass.confirm (after_retry env args (targets_of rows)).2)).2
          gwOnline :=
            (check_gateways_for_failures env.gwSched (after_retry env args (targets_of rows)).2
              (store_to_gateway rows)).1
          gwOffline :=
            (check_gateways_for_failures env.gwSched (after_retry env args (targets_of rows)).2
              (store_to_gateway rows)).2 } := by
      unfold passes_of
      exact run_passes_gateway_case env args (targets_of rows) (store_to_gateway rows) hgc hne
    have hpre : (run_core env args dcMap rows).preConfirmFailures =
        (after_retry env args (targets_of rows)).2 := by
      show (passes_of env args rows).preConfirmFailures = _
      rw [hpass]
    have hfin : (run_core env args dcMap rows).finalFailures =
        (parallel_ping (env.sched Pass.confirm
          (run_core env args dcMap rows).preConfirmFailures)).2 := by
      show (passes_of env args rows).finalFailures = _
      rw [hpre]
      show (passes_of env args rows).finalFailures = _
      rw [hpass]
    have hnot : t ∉ (run_core env args dcMap rows).finalFailures := by
      rw [hfin]
      intro hmem
      rcases mem_parallel_ping_fail.mp hmem with ⟨o, hmo, hbad⟩
      rw [hconf o hmo] at hbad
      cases hbad
    refine ⟨hpre, hfin, hnot, rfl, ?_, ?_⟩
    · intro d hd hdt
      apply hnot
      have := @mem_fd_of env args dcMap rows d hd
      rw [hdt] at this
      exact this
    · intro row hrow hkey
      have hmem : row ∈ mapRows_of env args dcMap rows := hrow
      unfold mapRows_of at hmem
      rcases List.mem_map.mp hmem with ⟨rec, -, rfl⟩
      have hrs : rec.store = t.1 ∧ rec.ip = t.2 := by
        have h1 := congrArg Prod.fst hkey
        have h2 := congrArg Prod.snd hkey
        exact ⟨h1, h2⟩
      have hnone : failure_lookup (fd_of env args dcMap rows) rec.store rec.ip = none := by
        apply @failure_lookup_none_of_not_mem env args dcMap rows rec.store rec.ip
        rw [hrs.1, hrs.2]
        intro hc
        exact hnot hc
      obtain ⟨h1, -, h3, h4⟩ := @build_map_row_none (fd_of env args dcMap rows) dcMap
        (runId_of env args) env.runTs rec hnone
      exact ⟨h1, h3, h4⟩

/-- Witness for C4: in the concrete recovering run, store 1001 is not a final
failure. -/
theorem claim4_final_confirm_recovery_witness :
    ("1001", "10.0.0.5") ∉
      (run_core envRecover baseArgs (fun _ => none) [rec1001, rec2002]).finalFailures :=
  (claim4_final_confirm_recovery envRecover baseArgs (fun _ => none) [rec1001, rec2002]
    (run_core envRecover baseArgs (fun _ => none) [rec1001, rec2002]) ("1001", "10.0.0.5")
    (by decide) rfl (by decide)
    (by
      intro o ho
      have hl : envRecover.sched Pass.confirm
          (run_core envRecover baseArgs (fun _ => none) [rec1001, rec2002]).preConfirmFailures =
          [((("1001", "10.0.0.5")), Except.ok 0)] := by decide
      rw [hl] at ho
      have := List.mem_singleton.mp ho
      rw [Prod.mk.injEq] at this
      rw [this.2]
      decide)).2.2.1

end Sauron

namespace Sauron

/-! ## Claim C5: the gateway pass -/

/-- C5 counterexample: the gateway pass is gated on failures remaining after
the RETRY pass and probes the pre-final-confirm failure list
(sauron.py:809,833).  In a run where store 1001 fails initial and retry but
recovers during final-confirm, no failures remain after final-confirm, yet the
gateway pass still runs and probes 1001 — refuting "runs only if failures
remain after the final-confirm pass, and probes exactly the still-failing
endpoints". -/
theorem claim5_counterexample :
    (run_core envRecover baseArgs (fun _ => none) [rec1001, rec2002]).finalFailures = [] ∧
    (run_core envRecover baseArgs (fun _ => none) [rec1001, rec2002]).gwOnline =
      [("1001", "10.0.0.5", "10.0.0.1")] ∧
    (run_core envRecover baseArgs (fun _ => none) [rec1001, rec2002]).summary.gateway_online_count = 1 := by
  refine ⟨by decide, by decide, by decide⟩

/-- C5 amended: the gateway pass runs only if gateway checking is enabled and
failures remain after the RETRY pass, and it probes exactly the endpoints
still failing after retry (the pre-final-confirm failures, which include any
endpoint that recovers during final-confirm), probing for each such endpoint
its configured secondary address when non-empty and otherwise the address
derived from the primary IPv4 address by replacing the final octet with the
sentinel 1; endpoints with no derivable address are skipped (they appear in
neither gateway list), and a primary address that is not a valid IPv4 address
derives no gateway. -/
theorem claim5_gateway_pass (env : Env) (args : Args)
    (dcMap : String → Option String) (rows : List Rec) (res : RunResult)
    (hok : runOnce env args dcMap rows = Except.ok res)
    (hv : Env.validSched env) :
    ((args.gatewayCheck = false ∨ (after_retry env args (targets_of rows)).2 = []) →
      res.gwOnline = [] ∧ res.gwOffline = []) ∧
    (args.gatewayCheck = true → (after_retry env args (targets_of rows)).2 ≠ [] →
      res.preConfirmFailures = (after_retry env args (targets_of rows)).2 ∧
      (∀ g : GwTriple, (g ∈ res.gwOnline ∨ g ∈ res.gwOffline) ↔
        ∃ t, t ∈ res.preConfirmFailures ∧ gw_addr (store_to_gateway rows) t ≠ "" ∧
          g = (t.1, t.2, gw_addr (store_to_gateway rows) t))) ∧
    (∀ st2gw : String → String, ∀ t : Target, st2gw t.1 ≠ "" →
      gw_addr st2gw t = st2gw t.1) ∧
    (∀ st2gw : String → String, ∀ t : Target, st2gw t.1 = "" →
      gw_addr st2gw t = derive_gateway_ip t.2) ∧
    (∀ s : String, ¬ isValidIPv4 s = true → derive_gateway_ip s = "") := by
  obtain ⟨hres, hlen⟩ := runOnce_ok_elim hok
  subst hres
  refine ⟨?_, ?_, ?_, ?_, ?_⟩
  · intro h
    have hcond : ¬ (args.gatewayCheck = true ∧
        ¬ ((after_retry env args (targets_of rows)).2.isEmpty = true)) := by
      rcases h with h | h
      · intro hc
        rw [h] at hc
        cases hc.1
      · intro hc
        exact hc.2 (by rw [h]; rfl)
    constructor
    · show (passes_of env args rows).gwOnline = []
      unfold passes_of
      rw [run_passes_plain_case env args (targets_of rows) (store_to_gateway rows) hcond]
    · show (passes_of env args rows).gwOffline = []
      unfold passes_of
      rw [run_passes_plain_case env args (targets_of rows) (store_to_gateway rows) hcond]
  · intro hgc hne
    have hne2 : ¬ ((after_retry env args (targets_of rows)).2.isEmpty = true) := by
      intro hc
      apply hne
      cases h : (after_retry env args (targets_of rows)).2
      · rfl
      · rw [h] at hc
        cases hc
    have hpass := run_passes_gateway_case env args (targets_of rows)
      (store_to_gateway rows) hgc hne2
    have hpre : (run_core env args dcMap rows).preConfirmFailures =
        (after_retry env args (targets_of rows)).2 := by
      show (passes_of env args rows).preConfirmFailures = _
      unfold passes_of
      rw [hpass]
    refine ⟨hpre, ?_⟩
    intro g
    have hon : (run_core env args dcMap rows).gwOnline =
        (check_gateways_for_failures env.gwSched (after_retry env args (targets_of rows)).2
          (store_to_gateway rows)).1 := by
      show (passes_of env args rows).gwOnline = _
      unfold passes_of
      rw [hpass]
    have hoff : (run_core env args dcMap rows).gwOffline =
        (check_gateways_for_failures env.gwSched (after_retry env args (targets_of rows)).2
          (store_to_gateway rows)).2 := by
      show (passes_of env args rows).gwOffline = _
      unfold passes_of
      rw [hpass]
    rw [hon, hoff, hpre]
    rw [mem_check_gateways (hv.2 _)]
    exact mem_gw_targets_of
  · intro st2gw t h
    unfold gw_addr
    rw [if_pos h]
  · intro st2gw t h
    unfold gw_addr
    rw [if_neg (by simp [h])]
  · intro s h
    unfold derive_gateway_ip
    rw [if_neg h]

/-- Witness for C5: in the concrete recovering run the gateway pass probed
store 1001 at its derived ".1" gateway even though 1001 was no longer
failing. -/
theorem claim5_gateway_pass_witness :
    ("1001", "10.0.0.5", "10.0.0.1") ∈
        (run_core envRecover baseArgs (fun _ => none) [rec1001, rec2002]).gwOnline ∨
    ("1001", "10.0.0.5", "10.0.0.1") ∈
        (run_core envRecover baseArgs (fun _ => none) [rec1001, rec2002]).gwOffline :=
  (((claim5_gateway_pass envRecover baseArgs (fun _ => none) [rec1001, rec2002]
      (run_core envRecover baseArgs (fun _ => none) [rec1001, rec2002]) (by decide)
      (mkEnv_validSched _ _ _ _)).2.1 rfl (by decide)).2
    ("1001", "10.0.0.5", "10.0.0.1")).mpr
    ⟨("1001", "10.0.0.5"), by decide, by decide, by decide⟩

end Sauron

namespace Sauron

/-! ## Claim C6: transition detection -/

/-- C6: transition detection tolerates a missing or unparsable prior snapshot
(no transitions); `new_offline` holds exactly the new rows whose prior row
(by (store, server_ip) key) was server-reachable while the new row is not;
`back_online` holds exactly the reverse flips, each carrying the prior row's
timestamp as `last_seen_offline_at`; endpoints absent from the prior snapshot
produce no transition (membership requires a prior row); and the pipeline's
published transition lists are exactly this detector applied to the loaded
previous snapshot and the new snapshot rows. -/
theorem claim6_transition_detection :
    (∀ rows, detect_transitions (load_latest_map_status none) rows = ([], [])) ∧
    (∀ prev rows row,
      row ∈ (detect_transitions prev rows).1 ↔
        row ∈ rows ∧ ∃ p, prev_lookup prev (row.store, row.server_ip) = some p ∧
          to_bool p.server_up = true ∧ to_bool row.server_up = false) ∧
    (∀ prev rows b,
      b ∈ (detect_transitions prev rows).2 ↔
        b.row ∈ rows ∧ ∃ p, prev_lookup prev (b.row.store, b.row.server_ip) = some p ∧
          to_bool p.server_up = false ∧ to_bool b.row.server_up = true ∧
          b.last_seen_offline_at = p.timestamp) ∧
    (∀ env args dcMap rows res, runOnce env args dcMap rows = Except.ok res →
      res.newOfflines =
        (detect_transitions (load_latest_map_status env.prevData) res.mapRows).1 ∧
      res.backOnline =
        (detect_transitions (load_latest_map_status env.prevData) res.mapRows).2) := by
  refine ⟨fun rows => rfl, ?_, ?_, ?_⟩
  · intro prev rows row
    unfold detect_transitions
    by_cases hp : prev.isEmpty = true
    · rw [if_pos hp]
      have hnil : prev = [] := by
        cases prev
        · rfl
        · cases hp
      constructor
      · intro h
        cases h
      · rintro ⟨-, p, hlk, -⟩
        rw [hnil] at hlk
        cases hlk
    · rw [if_neg hp]
      dsimp only
      rw [List.mem_filter]
      constructor
      · rintro ⟨hr, hpred⟩
        refine ⟨hr, ?_⟩
        cases hlk : prev_lookup prev (row.store, row.server_ip) with
        | none => rw [hlk] at hpred; cases hpred
        | some p =>
          rw [hlk] at hpred
          rw [Bool.and_eq_true, Bool.not_eq_true'] at hpred
          exact ⟨p, rfl, hpred.1, hpred.2⟩
      · rintro ⟨hr, p, hlk, h1, h2⟩
        refine ⟨hr, ?_⟩
        rw [hlk]
        simp [h1, h2]
  · intro prev rows b
    unfold detect_transitions
    by_cases hp : prev.isEmpty = true
    · rw [if_pos hp]
      have hnil : prev = [] := by
        cases prev
        · rfl
        · cases hp
      constructor
      · intro h
        cases h
      · rintro ⟨-, p, hlk, -⟩
        rw [hnil] at hlk
        cases hlk
    · rw [if_neg hp]
      dsimp only
      rw [List.mem_filterMap]
      constructor
      · rintro ⟨row, hr, hf⟩
        cases hlk : prev_lookup prev (row.store, row.server_ip) with
        | none => rw [hlk] at hf; cases hf
        | some p =>
          rw [hlk] at hf
          dsimp only at hf
          by_cases hc : (!to_bool p.server_up && to_bool row.server_up) = true
          · rw [if_pos hc] at hf
            have hb := Option.some.inj hf
            rw [Bool.and_eq_true, Bool.not_eq_true'] at hc
            subst hb
            exact ⟨hr, p, hlk, hc.1, hc.2, rfl⟩
          · rw [if_neg hc] at hf
            cases hf
      · rintro ⟨hr, p, hlk, h1, h2, h3⟩
        refine ⟨b.row, hr, ?_⟩
        rw [hlk]
        dsimp only
        rw [if_pos (by rw [Bool.and_eq_true, Bool.not_eq_true']; exact ⟨h1, h2⟩)]
        rw [← h3]
  · intro env args dcMap rows res hok
    obtain ⟨hres, -⟩ := runOnce_ok_elim hok
    subst hres
    exact ⟨rfl, rfl⟩

/-! ## Claim C7: ordering -/

/-- C7 counterexample, two independent refutations.  First, the pass lists
are not independent of probe completion order: two completions of the same
outcomes for two targets sharing the identity "1" (a tie of the sort key,
which orders by numeric prefix then identity string only) produce different
failure lists under the stable sort.  Second, the published snapshot rows are
emitted in inventory order (sauron.py:878), not in the sorted order the claim
states: an inventory listing 2002 before 1001 yields rows in that order,
which is not sorted by the store key. -/
theorem claim7_counterexample :
    tieCompletedA.Perm tieCompletedB ∧
    (parallel_ping tieCompletedA).2 = [("1", "a"), ("1", "b")] ∧
    (parallel_ping tieCompletedB).2 = [("1", "b"), ("1", "a")] ∧
    (parallel_ping tieCompletedA).2 ≠ (parallel_ping tieCompletedB).2 ∧
    (run_core envAllDown baseArgs (fun _ => none) [rec2002, rec1001]).mapRows.map
      (fun r => r.store) = ["2002", "1001"] ∧
    ¬ List.Sorted target_le
      ((run_core envAllDown baseArgs (fun _ => none) [rec2002, rec1001]).mapRows.map
        (fun r => (r.store, r.server_ip))) := by
  refine ⟨by decide, by decide, by decide, by decide, by decide, by decide⟩

/-- C7 amended: each pass's success and failure lists are always sorted by
the deterministic key (numeric prefix of identity, then identity string), and
whenever the inventory's identities are pairwise distinct they are identical
regardless of probe completion order; the published snapshot rows follow the
inventory order (hence are identical across executions for a fixed
inventory), not the sorted order; and, with pairwise-distinct identities, the
entire published run result is identical across any two executions that
differ only in the order in which concurrent probes complete. -/
theorem claim7_ordering :
    (∀ completed : List (Target × SubprocResult),
      (parallel_ping completed).1.Sorted target_le ∧
      (parallel_ping completed).2.Sorted target_le) ∧
    (∀ c₁ c₂ : List (Target × SubprocResult), c₁.Perm c₂ →
      (c₁.map (fun p => p.1.1)).Nodup → parallel_ping c₁ = parallel_ping c₂) ∧
    (∀ env args dcMap rows res, runOnce env args dcMap rows = Except.ok res →
      res.mapRows.map (fun r => (r.store, r.server_ip)) =
        rows.map (fun r => (r.store, r.ip))) ∧
    (∀ env₁ env₂ : Env, ∀ args dcMap rows, Env.validSched env₁ →
      (∀ p ts, (env₁.sched p ts).Perm (env₂.sched p ts)) →
      (∀ ts, (env₁.gwSched ts).Perm (env₂.gwSched ts)) →
      env₁.prevData = env₂.prevData → env₁.transport = env₂.transport →
      env₁.runStamp = env₂.runStamp → env₁.runTs = env₂.runTs →
      ((targets_of rows).map (fun t => t.1)).Nodup →
      runOnce env₁ args dcMap rows = runOnce env₂ args dcMap rows) := by
  refine ⟨?_, ?_, ?_, ?_⟩
  · intro completed
    exact ⟨List.sorted_insertionSort _ _, List.sorted_insertionSort _ _⟩
  · intro c₁ c₂ hp hnd
    exact parallel_ping_eq_of_perm hp hnd
  · intro env args dcMap rows res hok
    obtain ⟨hres, -⟩ := runOnce_ok_elim hok
    subst hres
    show (mapRows_of env args dcMap rows).map _ = _
    unfold mapRows_of
    rw [List.map_map]
    rfl
  · intro env₁ env₂ args dcMap rows hv hsched hgw hprev htrans hstamp hts hnd
    unfold runOnce
    by_cases h : rows.length = 0
    · rw [if_pos h, if_pos h]
    · rw [if_neg h, if_neg h]
      rw [run_core_sched_eq args dcMap rows hv hsched hgw hprev htrans hstamp hts hnd]

/-- Witness for C7: with the distinct identities 1001 and 2002, a run whose
probe completions arrive in reversed order publishes the identical result,
and the snapshot rows of a concrete run follow the inventory order. -/
theorem claim7_ordering_witness :
    runOnce (mkEnv (fun _ _ => false) (fun _ => false) none okTransport) baseArgs
        (fun _ => none) [rec1001, rec2002] =
      runOnce (mkEnvRev (fun _ _ => false) (fun _ => false) none okTransport) baseArgs
        (fun _ => none) [rec1001, rec2002] ∧
    (run_core envAllDown baseArgs (fun _ => none) [rec2002, rec1001]).mapRows.map
        (fun r => (r.store, r.server_ip)) =
      [rec2002, rec1001].map (fun r => (r.store, r.ip)) :=
  ⟨claim7_ordering.2.2.2 (mkEnv (fun _ _ => false) (fun _ => false) none okTransport)
      (mkEnvRev (fun _ _ => false) (fun _ => false) none okTransport) baseArgs
      (fun _ => none) [rec1001, rec2002] (mkEnv_validSched _ _ _ _)
      (mkEnvRev_sched_perm _ _ _ _).1 (mkEnvRev_sched_perm _ _ _ _).2
      rfl rfl rfl rfl (by decide),
   claim7_ordering.2.2.1 envAllDown baseArgs (fun _ => none) [rec2002, rec1001]
      (run_core envAllDown baseArgs (fun _ => none) [rec2002, rec1001]) (by decide)⟩

end Sauron

namespace Sauron

/-- Witness for C6: the pipeline linkage instantiated on a concrete run with
a previous snapshot. -/
theorem claim6_transition_detection_witness :
    (run_core envDown baseArgs (fun _ => none) [rec1001]).newOfflines =
      (detect_transitions (load_latest_map_status envDown.prevData)
        (run_core envDown baseArgs (fun _ => none) [rec1001]).mapRows).1 ∧
    (run_core envDown baseArgs (fun _ => none) [rec1001]).backOnline =
      (detect_transitions (load_latest_map_status envDown.prevData)
        (run_core envDown baseArgs (fun _ => none) [rec1001]).mapRows).2 :=
  claim6_transition_detection.2.2.2 envDown baseArgs (fun _ => none) [rec1001]
    (run_core envDown baseArgs (fun _ => none) [rec1001]) (by decide)

/-! ## Claim C8: the historical store -/

/-- C8: after any sequence of writes to an initially fresh historical store
(each write's snapshot and alert rows tagged with that write's run id, as the
pipeline always does), the store holds at most one run-summary row per run
identifier, and the event rows and alert rows stored under an identifier are
exactly those of the most recent write with that identifier — a re-run with
the same identifier replaces, never duplicates. -/
theorem claim8_store_replacement (ws : List WriteOp) (rid : String)
    (h : ∀ w ∈ ws, (∀ r ∈ w.mapRows, r.run_id = w.summary.run_id) ∧
      (∀ a ∈ w.alertRows, a.run_id = w.summary.run_id)) :
    ((apply_writes ws).runs.filter (fun r => r.1 == rid)).length ≤ 1 ∧
    (apply_writes ws).events.filter (fun e => e.run_id == rid) =
      (match last_write_for ws rid with
        | some w => w.mapRows.map dbEventOfRow
        | none => []) ∧
    (apply_writes ws).alerts.filter (fun a => a.run_id == rid) =
      (match last_write_for ws rid with
        | some w => w.alertRows.map dbAlertOfRow
        | none => []) :=
  ⟨apply_writes_runs_unique ws rid,
   apply_writes_events ws rid (fun w hw => (h w hw).1),
   apply_writes_alerts ws rid (fun w hw => (h w hw).2)⟩

/-- Witness for C8: two writes under run id "r1" — the store keeps one
summary row and exactly the second write's snapshot and alert rows. -/
theorem claim8_store_replacement_witness :
    ((apply_writes [writeA, writeB]).runs.filter (fun r => r.1 == "r1")).length ≤ 1 ∧
    (apply_writes [writeA, writeB]).events.filter (fun e => e.run_id == "r1") =
      (match last_write_for [writeA, writeB] "r1" with
        | some w => w.mapRows.map dbEventOfRow
        | none => []) ∧
    (apply_writes [writeA, writeB]).alerts.filter (fun a => a.run_id == "r1") =
      (match last_write_for [writeA, writeB] "r1" with
        | some w => w.alertRows.map dbAlertOfRow
        | none => []) :=
  claim8_store_replacement [writeA, writeB] "r1" (by decide)

/-! ## Claim C9: alert records and delivery -/

/-- C9: for each non-empty transition set exactly one alert record is
produced per run (the record list's types are exactly one "offline" entry when
new-offline endpoints exist and one "back_online" entry when recovered
endpoints exist); every record's `sent` flag is true iff a webhook URL is
configured; with a webhook configured the delivery outcome of POSTing the
record's message is recorded in `delivery_ok`/`delivery_detail`, and without
one `delivery_ok` stays null with an empty detail; and the webhook transport's
behaviour (including raising) changes nothing else about the run: the
summary, snapshot rows, failure details and transition lists are identical,
and the alert records themselves are still produced and persisted with only
their recorded delivery outcome differing. -/
theorem claim9_alert_records (env : Env) (args : Args)
    (dcMap : String → Option String) (rows : List Rec) (res : RunResult)
    (hok : runOnce env args dcMap rows = Except.ok res) :
    (res.alertRows.map (fun a => a.alert_type) =
      (if res.newOfflines.isEmpty then [] else ["offline"]) ++
      (if res.backOnline.isEmpty then [] else ["back_online"])) ∧
    (∀ a ∈ res.alertRows,
      (a.sent = true ↔ args.teamsWebhook ≠ "") ∧
      (args.teamsWebhook = "" → a.delivery_ok = none ∧ a.delivery_detail = "") ∧
      (args.teamsWebhook ≠ "" →
        a.delivery_ok = some (send_teams_webhook env.transport args.teamsWebhook a.message).1 ∧
        a.delivery_detail = (send_teams_webhook env.transport args.teamsWebhook a.message).2)) ∧
    (∀ t2 : String → String → Except String String,
      runOnce { env with transport := t2 } args dcMap rows =
        Except.ok (run_core { env with transport := t2 } args dcMap rows) ∧
      (run_core { env with transport := t2 } args dcMap rows).summary = res.summary ∧
      (run_core { env with transport := t2 } args dcMap rows).mapRows = res.mapRows ∧
      (run_core { env with transport := t2 } args dcMap rows).failuresDetail =
        res.failuresDetail ∧
      (run_core { env with transport := t2 } args dcMap rows).newOfflines = res.newOfflines ∧
      (run_core { env with transport := t2 } args dcMap rows).backOnline = res.backOnline ∧
      (run_core { env with transport := t2 } args dcMap rows).alertRows.map stripDelivery =
        res.alertRows.map stripDelivery) := by
  obtain ⟨hres, hlen⟩ := runOnce_ok_elim hok
  subst hres
  refine ⟨?_, ?_, ?_⟩
  · show (alerts_of env args dcMap rows).map _ = _
    unfold alerts_of
    exact build_alerts_types _ _ _ _ _ _ _
  · intro a ha
    have ha2 : a ∈ alerts_of env args dcMap rows := ha
    unfold alerts_of at ha2
    obtain ⟨s1, s2, s3, -, -⟩ := mem_build_alerts ha2
    exact ⟨s1, s2, s3⟩
  · intro t2
    refine ⟨?_, rfl, rfl, rfl, rfl, rfl, ?_⟩
    · unfold runOnce
      rw [if_neg hlen]
    · show (alerts_of { env with transport := t2 } args dcMap rows).map stripDelivery =
        (alerts_of env args dcMap rows).map stripDelivery
      unfold alerts_of
      exact build_alerts_strip t2 env.transport _ _ _ _ _ _

/-- Witness for C9: a concrete run with one new-offline endpoint, a configured
webhook and a raising transport still produces its alert record, with the
failure recorded; and with a succeeding transport the snapshot rows are
unchanged. -/
theorem claim9_alert_records_witness :
    (run_core envDown argsHook (fun _ => none) [rec1001]).alertRows.map
        (fun a => a.alert_type) =
      (if (run_core envDown argsHook (fun _ => none) [rec1001]).newOfflines.isEmpty
        then [] else ["offline"]) ++
      (if (run_core envDown argsHook (fun _ => none) [rec1001]).backOnline.isEmpty
        then [] else ["back_online"]) ∧
    (((run_core envDown argsHook (fun _ => none) [rec1001]).alertRows.headD dummyAlert).sent
        = true ↔ argsHook.teamsWebhook ≠ "") ∧
    (run_core { envDown with transport := okTransport } argsHook (fun _ => none)
        [rec1001]).mapRows =
      (run_core envDown argsHook (fun _ => none) [rec1001]).mapRows :=
  ⟨(claim9_alert_records envDown argsHook (fun _ => none) [rec1001]
      (run_core envDown argsHook (fun _ => none) [rec1001]) (by decide)).1,
   ((claim9_alert_records envDown argsHook (fun _ => none) [rec1001]
      (run_core envDown argsHook (fun _ => none) [rec1001]) (by decide)).2.1
      ((run_core envDown argsHook (fun _ => none) [rec1001]).alertRows.headD dummyAlert)
      (by decide)).1,
   ((claim9_alert_records envDown argsHook (fun _ => none) [rec1001]
      (run_core envDown argsHook (fun _ => none) [rec1001]) (by decide)).2.2
      okTransport).2.2.1⟩

/-! ## Claim C10: the persisted gateway field -/

/-- C10: every persisted snapshot row satisfies the invariant that a
server-up row has an unknown (empty) gateway field, and a definite gateway
value ("true"/"false") appears only on rows of endpoints that are final
failures — even though the gateway pass also probes endpoints that recovered
during final-confirm, their gateway results are discarded from the
snapshot. -/
theorem claim10_gateway_field_invariant (env : Env) (args : Args)
    (dcMap : String → Option String) (rows : List Rec) (res : RunResult)
    (hok : runOnce env args dcMap rows = Except.ok res) :
    ∀ row ∈ res.mapRows,
      (row.server_up = "true" → row.gateway_up = "") ∧
      (row.gateway_up ≠ "" → row.server_up = "false" ∧
        (row.store, row.server_ip) ∈ res.finalFailures) := by
  obtain ⟨hres, -⟩ := runOnce_ok_elim hok
  subst hres
  intro row hrow
  have hmem : row ∈ mapRows_of env args dcMap rows := hrow
  unfold mapRows_of at hmem
  rcases List.mem_map.mp hmem with ⟨rec, -, rfl⟩
  cases hfl : failure_lookup (fd_of env args dcMap rows) rec.store rec.ip with
  | none =>
    obtain ⟨-, h2, -, -⟩ := @build_map_row_none (fd_of env args dcMap rows) dcMap
      (runId_of env args) env.runTs rec hfl
    constructor
    · intro _
      exact h2
    · intro hne
      exact absurd h2 hne
  | some d =>
    obtain ⟨h1, -⟩ := @build_map_row_some (fd_of env args dcMap rows) dcMap
      (runId_of env args) env.runTs rec d hfl
    constructor
    · intro hc
      rw [h1] at hc
      exact absurd hc (by decide)
    · intro _
      refine ⟨h1, ?_⟩
      obtain ⟨hd, hs, hip⟩ := failure_lookup_some hfl
      have hmm := @mem_fd_of env args dcMap rows d hd
      rw [hs, hip] at hmm
      have hst : (build_map_row (fd_of env args dcMap rows) dcMap (runId_of env args)
          env.runTs rec).store = rec.store := rfl
      have hsi : (build_map_row (fd_of env args dcMap rows) dcMap (runId_of env args)
          env.runTs rec).server_ip = rec.ip := rfl
      rw [hst, hsi]
      exact hmm

/-- Witness for C10: in a concrete run where the server is down and the
gateway answers, the persisted row carries a definite gateway value and the
endpoint is a final failure. -/
theorem claim10_gateway_field_invariant_witness :
    ((run_core envDownGwUp baseArgs (fun _ => none) [rec1001]).mapRows.headD dummyRow).server_up = "false" ∧
    (((run_core envDownGwUp baseArgs (fun _ => none) [rec1001]).mapRows.headD dummyRow).store,
      ((run_core envDownGwUp baseArgs (fun _ => none) [rec1001]).mapRows.headD dummyRow).server_ip) ∈
      (run_core envDownGwUp baseArgs (fun _ => none) [rec1001]).finalFailures :=
  (claim10_gateway_field_invariant envDownGwUp baseArgs (fun _ => none) [rec1001]
    (run_core envDownGwUp baseArgs (fun _ => none) [rec1001]) (by decide)
    ((run_core envDownGwUp baseArgs (fun _ => none) [rec1001]).mapRows.headD dummyRow)
    (by decide)).2 (by decide)

end Sauron
